import Mathlib

/-!
PortsfCpp: a shallow embedding of the C++ wrapper around portsf.

The embedding follows `src/include/portsfcpp.hpp` and `src/portsf/portsfcpp.cpp`.

* `using int16 = int; using uint16 = unsigned int;`: both aliases are 32 bits wide.
  A `uint16` value is a `Nat` reduced modulo `2^32` by `toUint16`, an `int16`
  value is an `Int` wrapped into the signed range by `toInt16`.
* The portsf C library (`portsf.h`) is an external collaborator: its entry points are
  the fields of `Driver`, acting on an arbitrary world state `σ` (which also holds the
  contents of the sample buffers handed to the transform).
* Every call that leaves the wrapper (driver call or transform call) is recorded as an
  `Event`, so that statements such as "no write is performed" can be expressed.
-/

namespace PortsfCpp

/-! ## Machine integers -/

/-- Conversion of an integer value to `uint16` (`unsigned int`): reduction modulo `2^32`. -/
def toUint16 (x : Int) : Nat := (x % 4294967296).toNat

/-- Conversion of an integer value to `int16` (`int`): wrap into `[-2^31, 2^31)`. -/
def toInt16 (x : Int) : Int := (x + 2147483648) % 4294967296 - 2147483648

/-- Conversion of an integer value to `bool`: every non-zero value is `true`. -/
def toBool (x : Int) : Bool := x != 0

/-- Conversion of a `bool` to an integer: `false` is 0 and `true` is 1. -/
def ofBool (b : Bool) : Int := if b then 1 else 0

/-! ## Types of `portsf.h` -/

/-- Modelled from the spec: the sample type enumeration `psf_stype` of `portsf.h`, which is
not part of the sources; only the enumerator used by the wrapper is named, the others are
kept apart by their numeric tag. -/
inductive psf_stype where
  | PSF_SAMP_16
  | other (tag : Nat)
  deriving DecidableEq, Repr

/-- Modelled from the spec: the file format enumeration `psf_format` of `portsf.h`, which is
not part of the sources; only the enumerator used by the wrapper is named. -/
inductive psf_format where
  | PSF_STDWAVE
  | other (tag : Nat)
  deriving DecidableEq, Repr

/-- Modelled from the spec: the channel layout enumeration `psf_channelformat` of
`portsf.h`, which is not part of the sources; only the enumerator used by the wrapper is
named. -/
inductive psf_channelformat where
  | MC_STEREO
  | other (tag : Nat)
  deriving DecidableEq, Repr

/-- The `PSF_PROPS` record, with the five fields the wrapper reads and writes. -/
structure PSF_PROPS where
  srate : Int
  chans : Int
  samptype : psf_stype
  format : psf_format
  chformat : psf_channelformat
  deriving DecidableEq, Repr

/-- Modelled from the spec: the seek mode `PSF_SEEK_SET` of `portsf.h`, which is not part
of the sources: the offset is absolute, counted from the start of the audio data. -/
def PSF_SEEK_SET : Int := 0

/-- Modelled from the spec: the status `PSF_E_NOERROR` of `portsf.h`, which is not part of
the sources: the value by which a driver call that returns a status reports success;
failures are reported by negative values. -/
def PSF_E_NOERROR : Int := 0

/-- Sample representation of the input buffer: the two overloads of `ReadStream::read`. -/
inductive InRep where
  | float
  | double
  deriving DecidableEq, Repr

/-- Sample representation of the output buffer: the three overloads of
`WriteStream::write`. -/
inductive OutRep where
  | short
  | float
  | double
  deriving DecidableEq, Repr

/-- The entry points of the portsf C library used by the wrapper, over a world state `σ`.
Results are the raw C return values; the wrapper converts them. -/
structure Driver (σ : Type) where
  psf_sndOpen : σ → String → Int → σ × Int × PSF_PROPS
  psf_sndCreate : σ → String → PSF_PROPS → Int → Int → Int → σ × Int
  psf_sndClose : σ → Int → σ
  psf_sndSize : σ → Int → Int
  psf_sndTell : σ → Int → Int
  psf_sndSeek : σ → Int → Int → Int → σ × Int
  psf_sndReadFloatFrames : σ → Int → Nat → σ × Int
  psf_sndReadDoubleFrames : σ → Int → Nat → σ × Int
  psf_sndWriteShortFrames : σ → Int → Nat → σ × Int
  psf_sndWriteFloatFrames : σ → Int → Nat → σ × Int
  psf_sndWriteDoubleFrames : σ → Int → Nat → σ × Int

/-- The user transform `ProcessCallback`: it sees the world (input buffer included), the
frame count of the block, and answers whether the output block is valid. -/
abbrev ProcessCallback (σ : Type) := σ → Nat → σ × Bool

/-- One call leaving the wrapper, with its arguments and its converted result. -/
inductive Event where
  | sndOpen (path : String) (rescale : Int) (sfd : Int)
  | sndCreate (path : String) (props : PSF_PROPS) (clip minHeader mode : Int) (sfd : Int)
  | sndClose (sfd : Int)
  | sndSize (sfd : Int) (frames : Nat)
  | read (sfd : Int) (numFrames : Nat) (ret : Nat)
  | process (numFrames : Nat) (ret : Bool)
  | write (sfd : Int) (numFrames : Nat) (ret : Nat)
  deriving DecidableEq, Repr

namespace Audio

/-- The class `BaseStream`: a descriptor and the properties it was constructed with. -/
structure BaseStream where
  sfd_ : Int
  props_ : PSF_PROPS
  deriving DecidableEq, Repr

/-- The destructor `BaseStream::~BaseStream`: closes the descriptor. -/
def BaseStream.destroy {σ : Type} (d : Driver σ) (b : BaseStream) (s : σ) : σ × List Event :=
  (d.psf_sndClose s b.sfd_, [Event.sndClose b.sfd_])

def BaseStream.getFormat (b : BaseStream) : psf_format := b.props_.format

def BaseStream.getSampleType (b : BaseStream) : psf_stype := b.props_.samptype

def BaseStream.getChannelFormat (b : BaseStream) : psf_channelformat := b.props_.chformat

def BaseStream.getSampleRate (b : BaseStream) : Int := b.props_.srate

def BaseStream.getNumChannels (b : BaseStream) : Nat := toUint16 b.props_.chans

def BaseStream.getPosition {σ : Type} (d : Driver σ) (b : BaseStream) (s : σ) : Nat :=
  toUint16 (d.psf_sndTell s b.sfd_)

/-- The method `BaseStream::setPosition`: the `int` result of the driver's seek from
`PSF_SEEK_SET` is returned as a `bool`. -/
def BaseStream.setPosition {σ : Type} (d : Driver σ) (b : BaseStream) (s : σ)
    (position : Nat) : σ × Bool :=
  ((d.psf_sndSeek s b.sfd_ (toInt16 position) PSF_SEEK_SET).1,
    toBool (d.psf_sndSeek s b.sfd_ (toInt16 position) PSF_SEEK_SET).2)

def BaseStream.getNumFrames {σ : Type} (d : Driver σ) (b : BaseStream) (s : σ) : Nat :=
  toUint16 (d.psf_sndSize s b.sfd_)

/-- The class `ReadStream`, a `BaseStream` with no further state. -/
structure ReadStream where
  base : BaseStream
  deriving DecidableEq, Repr

/-- The factory `ReadStream::create`: `nullptr` (here `none`) exactly for `sfd == -1`. -/
def ReadStream.create (sfd : Int) (props : PSF_PROPS) : Option ReadStream :=
  if sfd = -1 then none else some ⟨⟨sfd, props⟩⟩

/-- The overloads of `ReadStream::read`, selected by the buffer's representation. -/
def ReadStream.read {σ : Type} (d : Driver σ) (r : ReadStream) (rep : InRep) (s : σ)
    (numFrames : Nat) : σ × Nat :=
  match rep with
  | InRep.float =>
    ((d.psf_sndReadFloatFrames s r.base.sfd_ numFrames).1,
      toUint16 (d.psf_sndReadFloatFrames s r.base.sfd_ numFrames).2)
  | InRep.double =>
    ((d.psf_sndReadDoubleFrames s r.base.sfd_ numFrames).1,
      toUint16 (d.psf_sndReadDoubleFrames s r.base.sfd_ numFrames).2)

/-- The class `WriteStream`, a `BaseStream` with no further state. -/
structure WriteStream where
  base : BaseStream
  deriving DecidableEq, Repr

/-- The factory `WriteStream::create`: `nullptr` (here `none`) exactly for `sfd == -1`. -/
def WriteStream.create (sfd : Int) (props : PSF_PROPS) : Option WriteStream :=
  if sfd = -1 then none else some ⟨⟨sfd, props⟩⟩

/-- The overloads of `WriteStream::write`, selected by the buffer's representation. -/
def WriteStream.write {σ : Type} (d : Driver σ) (w : WriteStream) (rep : OutRep) (s : σ)
    (numFrames : Nat) : σ × Nat :=
  match rep with
  | OutRep.short =>
    ((d.psf_sndWriteShortFrames s w.base.sfd_ numFrames).1,
      toUint16 (d.psf_sndWriteShortFrames s w.base.sfd_ numFrames).2)
  | OutRep.float =>
    ((d.psf_sndWriteFloatFrames s w.base.sfd_ numFrames).1,
      toUint16 (d.psf_sndWriteFloatFrames s w.base.sfd_ numFrames).2)
  | OutRep.double =>
    ((d.psf_sndWriteDoubleFrames s w.base.sfd_ numFrames).1,
      toUint16 (d.psf_sndWriteDoubleFrames s w.base.sfd_ numFrames).2)

/-- The preset `getCDDAFormat`. -/
def getCDDAFormat : PSF_PROPS :=
  { srate := 44100
    chans := 2
    samptype := psf_stype.PSF_SAMP_16
    format := psf_format.PSF_STDWAVE
    chformat := psf_channelformat.MC_STEREO }

end Audio

namespace FileSystem

open Audio

/-- The class `OpenParams`; `rescale_` has the default member initialiser `false`. -/
structure OpenParams where
  path_ : String
  rescale_ : Bool
  deriving DecidableEq, Repr

/-- The constructor `OpenParams::OpenParams (path)`. -/
def OpenParams.mk1 (path : String) : OpenParams := { path_ := path, rescale_ := false }

def OpenParams.getPath (p : OpenParams) : String := p.path_

/-- The setter overload of `OpenParams::mustRescale`. -/
def OpenParams.setMustRescale (p : OpenParams) (rescale : Bool) : OpenParams :=
  { p with rescale_ := rescale }

/-- The getter overload of `OpenParams::mustRescale`. -/
def OpenParams.mustRescale (p : OpenParams) : Bool := p.rescale_

/-- The class `CreateParams`; the three options are `int` members initialised to 0. -/
structure CreateParams where
  path_ : String
  props_ : PSF_PROPS
  clipFloats_ : Int
  minHeader_ : Int
  mode_ : Int
  deriving DecidableEq, Repr

/-- The constructor `CreateParams::CreateParams (path, props)`. -/
def CreateParams.mk2 (path : String) (props : PSF_PROPS) : CreateParams :=
  { path_ := path, props_ := props, clipFloats_ := 0, minHeader_ := 0, mode_ := 0 }

/-- The constructor `CreateParams::CreateParams (path)`, with the default argument
`props = Audio::getCDDAFormat ()`. -/
def CreateParams.mk1 (path : String) : CreateParams := CreateParams.mk2 path getCDDAFormat

def CreateParams.getPath (p : CreateParams) : String := p.path_

def CreateParams.getProperties (p : CreateParams) : PSF_PROPS := p.props_

/-- The setter overload of `CreateParams::mustSupportsClippingOfFloats`. -/
def CreateParams.setMustSupportsClippingOfFloats (p : CreateParams) (clipFloats : Bool) :
    CreateParams :=
  { p with clipFloats_ := ofBool clipFloats }

/-- The getter overload of `CreateParams::mustSupportsClippingOfFloats`. -/
def CreateParams.mustSupportsClippingOfFloats (p : CreateParams) : Bool := toBool p.clipFloats_

def CreateParams.setMinimumHeader (p : CreateParams) (minHeader : Int) : CreateParams :=
  { p with minHeader_ := minHeader }

def CreateParams.getMinHeader (p : CreateParams) : Int := p.minHeader_

def CreateParams.setMode (p : CreateParams) (mode : Int) : CreateParams :=
  { p with mode_ := mode }

def CreateParams.getMode (p : CreateParams) : Int := p.mode_

/-- Outcome of `FileSystem::open`: the world after the call, the stream pointer
(`none` for `nullptr`) and the calls made. -/
structure OpenResult (σ : Type) where
  state : σ
  stream : Option ReadStream
  events : List Event

/-- The function `FileSystem::open`. -/
def «open» {σ : Type} (d : Driver σ) (s : σ) (params : OpenParams) : OpenResult σ :=
  let r := d.psf_sndOpen s params.getPath (ofBool params.mustRescale)
  let ev := [Event.sndOpen params.getPath (ofBool params.mustRescale) r.2.1]
  if r.2.1 = -1 then
    { state := r.1, stream := none, events := ev }
  else
    { state := r.1, stream := ReadStream.create r.2.1 r.2.2, events := ev }

/-- Outcome of `FileSystem::create`. -/
structure CreateResult (σ : Type) where
  state : σ
  stream : Option WriteStream
  events : List Event

/-- The function `FileSystem::create`. -/
def create {σ : Type} (d : Driver σ) (s : σ) (params : CreateParams) : CreateResult σ :=
  let r := d.psf_sndCreate s params.getPath params.getProperties
    (ofBool params.mustSupportsClippingOfFloats) params.getMinHeader params.getMode
  let ev := [Event.sndCreate params.getPath params.getProperties
    (ofBool params.mustSupportsClippingOfFloats) params.getMinHeader params.getMode r.2]
  if r.2 = -1 then
    { state := r.1, stream := none, events := ev }
  else
    { state := r.1, stream := WriteStream.create r.2 params.getProperties, events := ev }

/-- The constant `kBlockSize` of `openAndProcess`. -/
def kBlockSize : Nat := 512

/-- The block length `std::min<int16> (framesLeft, kBlockSize)` of one iteration: both
arguments are converted to `int16` before they are compared. -/
def numFrames (framesLeft : Nat) : Int := min (toInt16 framesLeft) (toInt16 kBlockSize)

/-- State at the exit of the block loop of `openAndProcess`. -/
structure LoopResult (σ : Type) where
  state : σ
  framesLeft : Nat
  events : List Event

/-- The log of the calls `evs` made before the remainder `rest` of a loop run. -/
def LoopResult.after {σ : Type} (evs : List Event) (rest : LoopResult σ) : LoopResult σ :=
  { rest with events := evs ++ rest.events }

/-- The `while (framesLeft > 0)` loop of the stream overload of `openAndProcess`.
`numFrames` is an `int`; it is converted to `uint16` where it is passed to `read`, to the
transform and to `write`, where it is compared with their `uint16` results, and where it
is subtracted from `framesLeft`. -/
def whileLoop {σ : Type} (d : Driver σ) (inRep : InRep) (outRep : OutRep)
    (rStream : ReadStream) (wStream : WriteStream) (processCall : ProcessCallback σ)
    (framesLeft : Nat) (s : σ) : LoopResult σ :=
  if _h : framesLeft > 0 then
    let numFrames : Int := numFrames framesLeft
    let rd := rStream.read d inRep s (toUint16 numFrames)
    let evR := Event.read rStream.base.sfd_ (toUint16 numFrames) rd.2
    if rd.2 ≠ toUint16 numFrames then
      { state := rd.1, framesLeft := framesLeft, events := [evR] }
    else
      let pr := processCall rd.1 (toUint16 numFrames)
      let evP := Event.process (toUint16 numFrames) pr.2
      if pr.2 then
        let wr := wStream.write d outRep pr.1 (toUint16 numFrames)
        let evW := Event.write wStream.base.sfd_ (toUint16 numFrames) wr.2
        if wr.2 ≠ toUint16 numFrames then
          { state := wr.1, framesLeft := framesLeft, events := [evR, evP, evW] }
        else
          LoopResult.after [evR, evP, evW]
            (whileLoop d inRep outRep rStream wStream processCall
              (toUint16 ((framesLeft : Int) - numFrames)) wr.1)
      else
        { state := pr.1, framesLeft := framesLeft, events := [evR, evP] }
  else
    { state := s, framesLeft := framesLeft, events := [] }
termination_by framesLeft
decreasing_by
  simp only [PortsfCpp.FileSystem.numFrames, toUint16, toInt16, kBlockSize]
  omega

/-- Outcome of a run of `openAndProcess`. -/
structure ProcessResult (σ : Type) where
  state : σ
  result : Bool
  events : List Event

/-- The stream overload `openAndProcess (ReadStream&, WriteStream&, ProcessCallback)`. -/
def openAndProcess {σ : Type} (d : Driver σ) (inRep : InRep) (outRep : OutRep)
    (rStream : ReadStream) (wStream : WriteStream) (processCall : ProcessCallback σ)
    (s : σ) : ProcessResult σ :=
  let framesLeft := rStream.base.getNumFrames d s
  let loop := whileLoop d inRep outRep rStream wStream processCall framesLeft s
  { state := loop.state
    result := decide (loop.framesLeft = 0)
    events := Event.sndSize rStream.base.sfd_ framesLeft :: loop.events }

/-- The parameter-object overload `openAndProcess (OpenParams, CreateParams,
ProcessCallback)`. The two `unique_ptr`s are destroyed when the function returns, in
reverse order of construction; a null pointer destroys nothing. -/
def openAndProcessParams {σ : Type} (d : Driver σ) (inRep : InRep) (outRep : OutRep)
    (oParams : OpenParams) (cParams : CreateParams) (processCall : ProcessCallback σ)
    (s : σ) : ProcessResult σ :=
  let o := «open» d s oParams
  match o.stream with
  | none => { state := o.state, result := false, events := o.events }
  | some rStream =>
    let c := create d o.state cParams
    match c.stream with
    | none =>
      let dr := rStream.base.destroy d c.state
      { state := dr.1, result := false, events := o.events ++ c.events ++ dr.2 }
    | some wStream =>
      let run := openAndProcess d inRep outRep rStream wStream processCall c.state
      let dw := wStream.base.destroy d run.state
      let dr := rStream.base.destroy d dw.1
      { state := dr.1
        result := run.result
        events := o.events ++ c.events ++ run.events ++ dw.2 ++ dr.2 }

/-! ## Vocabulary of the statements -/

/-- Shape of the calls made by the block loop that starts with `f` frames left and exits
with `f'` frames left, reading from descriptor `r` and writing to descriptor `w`: complete
blocks, closed either by the regular exit or by the one failing step that breaks out. -/
inductive LoopTrace (r w : Int) : Nat → Nat → List Event → Prop
  | done : LoopTrace r w 0 0 []
  | shortRead (f n ret : Nat) : 0 < f → n = toUint16 (numFrames f) → ret ≠ n →
      LoopTrace r w f f [Event.read r n ret]
  | rejected (f n : Nat) : 0 < f → n = toUint16 (numFrames f) →
      LoopTrace r w f f [Event.read r n n, Event.process n false]
  | shortWrite (f n ret : Nat) : 0 < f → n = toUint16 (numFrames f) → ret ≠ n →
      LoopTrace r w f f [Event.read r n n, Event.process n true, Event.write w n ret]
  | block (f n f₁ f' : Nat) (rest : List Event) : 0 < f → n = toUint16 (numFrames f) →
      f₁ = toUint16 ((f : Int) - numFrames f) → LoopTrace r w f₁ f' rest →
      LoopTrace r w f f'
        (Event.read r n n :: Event.process n true :: Event.write w n n :: rest)

/-- The frame counts requested by the `read` calls of a log, in order. -/
def readRequests : List Event → List Nat
  | [] => []
  | Event.read _ n _ :: es => n :: readRequests es
  | _ :: es => readRequests es

/-- The frame counts handed to the transform by a log, in order. -/
def processRequests : List Event → List Nat
  | [] => []
  | Event.process n _ :: es => n :: processRequests es
  | _ :: es => processRequests es

/-- The frame counts requested by the `write` calls of a log, in order. -/
def writeRequests : List Event → List Nat
  | [] => []
  | Event.write _ n _ :: es => n :: writeRequests es
  | _ :: es => writeRequests es

/-- The number of frames the destination accepted over a log: the sum of the results of
its `write` calls. -/
def framesWritten : List Event → Nat
  | [] => 0
  | Event.write _ _ ret :: es => ret + framesWritten es
  | _ :: es => framesWritten es

/-- The block schedule in the words of the specification: 512 frames repeated
`N / 512` times, followed by the remainder `N % 512` when it is not zero. -/
def blockSchedule (N : Nat) : List Nat :=
  List.replicate (N / 512) 512 ++ (if N % 512 = 0 then [] else [N % 512])

/-- The result of the first transform call of a log, if the transform was called at all. -/
def firstProcessResult : List Event → Option Bool
  | [] => none
  | Event.process _ ok :: _ => some ok
  | _ :: es => firstProcessResult es

/-- The calls of a run in which every step of every block of the schedule succeeds. -/
def fullRun (r w : Int) : List Nat → List Event
  | [] => []
  | n :: ns => Event.read r n n :: Event.process n true :: Event.write w n n :: fullRun r w ns

/-- The descriptors a log obtained from the driver: the non-negative results of its
open and create calls, in order. -/
def obtained : List Event → List Int
  | [] => []
  | Event.sndOpen _ _ sfd :: es => if 0 ≤ sfd then sfd :: obtained es else obtained es
  | Event.sndCreate _ _ _ _ _ sfd :: es => if 0 ≤ sfd then sfd :: obtained es else obtained es
  | _ :: es => obtained es

/-- The number of times a log closes the descriptor `sfd`. -/
def closeCount (sfd : Int) : List Event → Nat
  | [] => 0
  | Event.sndClose x :: es => (if x = sfd then 1 else 0) + closeCount sfd es
  | _ :: es => closeCount sfd es

/-- The driver's set of open descriptors as explicit state: `openSet` reads the set off
the world, and the driver and the transform treat it as a descriptor table does. A
successful open or create (non-negative result) adds a descriptor that was not open, a
failed one (negative result) adds nothing, close removes its argument, and transfers and
the transform leave the set alone. -/
structure DescriptorLaws {σ : Type} (d : Driver σ) (processCall : ProcessCallback σ)
    (openSet : σ → Finset Int) : Prop where
  valid : ∀ (s : σ) (sfd : Int), sfd ∈ openSet s → 0 ≤ sfd
  open_ok : ∀ (s : σ) (path : String) (rescale : Int),
    0 ≤ (d.psf_sndOpen s path rescale).2.1 →
    (d.psf_sndOpen s path rescale).2.1 ∉ openSet s ∧
      openSet (d.psf_sndOpen s path rescale).1 =
        insert (d.psf_sndOpen s path rescale).2.1 (openSet s)
  open_failed : ∀ (s : σ) (path : String) (rescale : Int),
    (d.psf_sndOpen s path rescale).2.1 < 0 →
    openSet (d.psf_sndOpen s path rescale).1 = openSet s
  create_ok : ∀ (s : σ) (path : String) (props : PSF_PROPS) (clip minHeader mode : Int),
    0 ≤ (d.psf_sndCreate s path props clip minHeader mode).2 →
    (d.psf_sndCreate s path props clip minHeader mode).2 ∉ openSet s ∧
      openSet (d.psf_sndCreate s path props clip minHeader mode).1 =
        insert (d.psf_sndCreate s path props clip minHeader mode).2 (openSet s)
  create_failed : ∀ (s : σ) (path : String) (props : PSF_PROPS) (clip minHeader mode : Int),
    (d.psf_sndCreate s path props clip minHeader mode).2 < 0 →
    openSet (d.psf_sndCreate s path props clip minHeader mode).1 = openSet s
  close : ∀ (s : σ) (sfd : Int), openSet (d.psf_sndClose s sfd) = (openSet s).erase sfd
  readFloat : ∀ (s : σ) (sfd : Int) (n : Nat),
    openSet (d.psf_sndReadFloatFrames s sfd n).1 = openSet s
  readDouble : ∀ (s : σ) (sfd : Int) (n : Nat),
    openSet (d.psf_sndReadDoubleFrames s sfd n).1 = openSet s
  writeShort : ∀ (s : σ) (sfd : Int) (n : Nat),
    openSet (d.psf_sndWriteShortFrames s sfd n).1 = openSet s
  writeFloat : ∀ (s : σ) (sfd : Int) (n : Nat),
    openSet (d.psf_sndWriteFloatFrames s sfd n).1 = openSet s
  writeDouble : ∀ (s : σ) (sfd : Int) (n : Nat),
    openSet (d.psf_sndWriteDoubleFrames s sfd n).1 = openSet s
  process : ∀ (s : σ) (n : Nat), openSet (processCall s n).1 = openSet s

/-! ## A small driver for the examples -/

/-- World of the example driver: the next descriptor to hand out and the descriptors
handed out and not closed since. -/
structure ToyWorld where
  next : Nat
  fds : List Int
  deriving DecidableEq, Repr

/-- An example driver. `size` is the answer of `psf_sndSize`, `openErr` and `createErr` are
the error codes of `psf_sndOpen` and `psf_sndCreate` when they are to fail, `seekRet` is the
answer of `psf_sndSeek`; reads and writes transfer what is requested. -/
def toyDriver (size : Int) (openErr createErr : Option Int) (seekRet : Int) :
    Driver ToyWorld where
  psf_sndOpen s _ _ :=
    match openErr with
    | some e => (s, e, Audio.getCDDAFormat)
    | none => ({ next := s.next + 1, fds := (s.next : Int) :: s.fds }, s.next,
        Audio.getCDDAFormat)
  psf_sndCreate s _ _ _ _ _ :=
    match createErr with
    | some e => (s, e)
    | none => ({ next := s.next + 1, fds := (s.next : Int) :: s.fds }, s.next)
  psf_sndClose s sfd := { s with fds := s.fds.filter (fun x => x ≠ sfd) }
  psf_sndSize _ _ := size
  psf_sndTell _ _ := 0
  psf_sndSeek s _ _ _ := (s, seekRet)
  psf_sndReadFloatFrames s _ n := (s, n)
  psf_sndReadDoubleFrames s _ n := (s, n)
  psf_sndWriteShortFrames s _ n := (s, n)
  psf_sndWriteFloatFrames s _ n := (s, n)
  psf_sndWriteDoubleFrames s _ n := (s, n)

/-- The descriptors the example driver holds open. -/
def toyOpenSet (s : ToyWorld) : Finset Int :=
  s.fds.toFinset.filter (fun x => 0 ≤ x ∧ x < (s.next : Int))

/-- A transform that accepts every block. -/
def toyAccept : ProcessCallback ToyWorld := fun s _ => (s, true)

/-- A transform that rejects every block. -/
def toyReject : ProcessCallback ToyWorld := fun s _ => (s, false)

/-- An example source stream on descriptor 0. -/
def toyReadStream : ReadStream := ⟨⟨0, Audio.getCDDAFormat⟩⟩

/-- An example destination stream on descriptor 1. -/
def toyWriteStream : WriteStream := ⟨⟨1, Audio.getCDDAFormat⟩⟩

/-- An example world in which descriptors 0 and 1 are open. -/
def toyWorld : ToyWorld := { next := 2, fds := [1, 0] }

/-- Example parameters of the source file. -/
def toyIn : OpenParams := OpenParams.mk1 "in.wav"

/-- Example parameters of the destination file. -/
def toyOut : CreateParams := CreateParams.mk1 "out.wav"

/-- A transform that accepts the blocks of 512 frames and rejects every other block. -/
def toyAcceptFull : ProcessCallback ToyWorld := fun s n => (s, decide (n = 512))

/-! ## Failed runs and sequences of stream operations -/

/-- The frame counts of the writes of a log that returned the requested count, in order. -/
def successfulWrites : List Event → List Nat
  | [] => []
  | Event.write _ n ret :: es =>
    if ret = n then n :: successfulWrites es else successfulWrites es
  | _ :: es => successfulWrites es

/-- The calls of the iteration that stops the loop on a block of `n` frames: a short
read, or a read followed by a rejection, or a read and an accepted transform call followed
by a short write. Nothing follows the failing call. -/
inductive FailedStep (r w : Int) (n : Nat) : List Event → Prop
  | shortRead (ret : Nat) : ret ≠ n → FailedStep r w n [Event.read r n ret]
  | rejected : FailedStep r w n [Event.read r n n, Event.process n false]
  | shortWrite (ret : Nat) : ret ≠ n →
      FailedStep r w n [Event.read r n n, Event.process n true, Event.write w n ret]

/-- An operation a caller performs on a stream, apart from reading its format: a
transfer (`read` on a `ReadStream`, `write` on a `WriteStream`) in the representation
`rep`, `getPosition`, `setPosition` or `getNumFrames`. -/
inductive StreamOp (Rep : Type) where
  | transfer (rep : Rep) (numFrames : Nat)
  | getPosition
  | setPosition (position : Nat)
  | getNumFrames

/-- The stream object and the world after one operation on a `ReadStream`; the value the
operation returns is dropped. The members `sfd_` and `props_` are `const`: no method
assigns them, so the object after the call is the object before it. -/
def performOnReadStream {σ : Type} (d : Driver σ) (r : ReadStream) (s : σ) :
    StreamOp InRep → ReadStream × σ
  | StreamOp.transfer rep numFrames => (r, (r.read d rep s numFrames).1)
  | StreamOp.getPosition => (r, s)
  | StreamOp.setPosition position => (r, (r.base.setPosition d s position).1)
  | StreamOp.getNumFrames => (r, s)

/-- The stream object and the world after a sequence of operations on a `ReadStream`. -/
def performAllOnReadStream {σ : Type} (d : Driver σ) (r : ReadStream) (s : σ) :
    List (StreamOp InRep) → ReadStream × σ
  | [] => (r, s)
  | op :: ops =>
    performAllOnReadStream d (performOnReadStream d r s op).1
      (performOnReadStream d r s op).2 ops

/-- The stream object and the world after one operation on a `WriteStream`; the value
the operation returns is dropped. -/
def performOnWriteStream {σ : Type} (d : Driver σ) (w : WriteStream) (s : σ) :
    StreamOp OutRep → WriteStream × σ
  | StreamOp.transfer rep numFrames => (w, (w.write d rep s numFrames).1)
  | StreamOp.getPosition => (w, s)
  | StreamOp.setPosition position => (w, (w.base.setPosition d s position).1)
  | StreamOp.getNumFrames => (w, s)

/-- The stream object and the world after a sequence of operations on a `WriteStream`. -/
def performAllOnWriteStream {σ : Type} (d : Driver σ) (w : WriteStream) (s : σ) :
    List (StreamOp OutRep) → WriteStream × σ
  | [] => (w, s)
  | op :: ops =>
    performAllOnWriteStream d (performOnWriteStream d w s op).1
      (performOnWriteStream d w s op).2 ops

/-! ## A driver for one source file and one destination file -/

/-- World of the file driver: the number of frames of the source file, the number of
frames read from it so far, and the number of frames written to the destination. -/
structure FileWorld where
  size : Nat
  pos : Nat
  written : Nat
  deriving DecidableEq, Repr

/-- A driver that serves two streams already at hand. A read delivers what is left of the
source, at most what is requested, and moves the position; a write appends what it is
given; a seek moves the position. Its open and create always fail with -1. -/
def fileDriver : Driver FileWorld where
  psf_sndOpen s _ _ := (s, -1, Audio.getCDDAFormat)
  psf_sndCreate s _ _ _ _ _ := (s, -1)
  psf_sndClose s _ := s
  psf_sndSize s _ := s.size
  psf_sndTell s _ := s.pos
  psf_sndSeek s _ offset _ := ({ s with pos := offset.toNat }, 0)
  psf_sndReadFloatFrames s _ n :=
    ({ s with pos := s.pos + min n (s.size - s.pos) }, ((min n (s.size - s.pos) : Nat) : Int))
  psf_sndReadDoubleFrames s _ n :=
    ({ s with pos := s.pos + min n (s.size - s.pos) }, ((min n (s.size - s.pos) : Nat) : Int))
  psf_sndWriteShortFrames s _ n := ({ s with written := s.written + n }, n)
  psf_sndWriteFloatFrames s _ n := ({ s with written := s.written + n }, n)
  psf_sndWriteDoubleFrames s _ n := ({ s with written := s.written + n }, n)

/-- A transform on the file world that accepts every block. -/
def fileAccept : ProcessCallback FileWorld := fun s _ => (s, true)

/-- A source file of 1000 frames, not yet read, and an empty destination. -/
def fileWorld : FileWorld := { size := 1000, pos := 0, written := 0 }

/-! ## Arithmetic of the 32-bit conversions -/

theorem toUint16_lt (x : Int) : toUint16 x < 4294967296 := by
  unfold toUint16
  omega

theorem toUint16_of_lt (n : Nat) (h : n < 4294967296) : toUint16 (n : Int) = n := by
  unfold toUint16
  omega

theorem toUint16_numFrames_small (f : Nat) (h : f < 2147483648) :
    toUint16 (numFrames f) = min f 512 := by
  unfold toUint16 numFrames toInt16 kBlockSize
  omega

theorem toUint16_numFrames_large (f : Nat) (h₁ : 2147483648 ≤ f) (h₂ : f < 4294967296) :
    toUint16 (numFrames f) = f := by
  unfold toUint16 numFrames toInt16 kBlockSize
  omega

theorem framesLeft_next_small (f : Nat) (h : f < 2147483648) :
    toUint16 ((f : Int) - numFrames f) = f - min f 512 := by
  unfold toUint16 numFrames toInt16 kBlockSize
  omega

theorem framesLeft_next_large (f : Nat) (h₁ : 2147483648 ≤ f) (h₂ : f < 4294967296) :
    toUint16 ((f : Int) - numFrames f) = 0 := by
  unfold toUint16 numFrames toInt16 kBlockSize
  omega

theorem framesLeft_next_add (f : Nat) (h : f < 4294967296) :
    toUint16 (numFrames f) + toUint16 ((f : Int) - numFrames f) = f := by
  unfold toUint16 numFrames toInt16 kBlockSize
  omega

theorem framesLeft_next_lt (f : Nat) (h : 0 < f) :
    toUint16 ((f : Int) - numFrames f) < f := by
  unfold toUint16 numFrames toInt16 kBlockSize
  omega

/-! ## The block loop, case by case -/

theorem whileLoop_zero {σ : Type} (d : Driver σ) (inRep : InRep) (outRep : OutRep)
    (rStream : ReadStream) (wStream : WriteStream) (processCall : ProcessCallback σ) (s : σ) :
    whileLoop d inRep outRep rStream wStream processCall 0 s =
      { state := s, framesLeft := 0, events := [] } := by
  rw [whileLoop]
  simp

theorem whileLoop_shortRead {σ : Type} (d : Driver σ) (inRep : InRep) (outRep : OutRep)
    (rStream : ReadStream) (wStream : WriteStream) (processCall : ProcessCallback σ)
    (f : Nat) (s : σ) (hf : 0 < f)
    (hr : (rStream.read d inRep s (toUint16 (numFrames f))).2 ≠ toUint16 (numFrames f)) :
    whileLoop d inRep outRep rStream wStream processCall f s =
      { state := (rStream.read d inRep s (toUint16 (numFrames f))).1
        framesLeft := f
        events := [Event.read rStream.base.sfd_ (toUint16 (numFrames f))
          (rStream.read d inRep s (toUint16 (numFrames f))).2] } := by
  rw [whileLoop]
  simp [hf, hr]

theorem whileLoop_rejected {σ : Type} (d : Driver σ) (inRep : InRep) (outRep : OutRep)
    (rStream : ReadStream) (wStream : WriteStream) (processCall : ProcessCallback σ)
    (f : Nat) (s : σ) (hf : 0 < f)
    (hr : (rStream.read d inRep s (toUint16 (numFrames f))).2 = toUint16 (numFrames f))
    (hp : (processCall (rStream.read d inRep s (toUint16 (numFrames f))).1
      (toUint16 (numFrames f))).2 = false) :
    whileLoop d inRep outRep rStream wStream processCall f s =
      { state := (processCall (rStream.read d inRep s (toUint16 (numFrames f))).1
          (toUint16 (numFrames f))).1
        framesLeft := f
        events := [Event.read rStream.base.sfd_ (toUint16 (numFrames f))
            (toUint16 (numFrames f)),
          Event.process (toUint16 (numFrames f)) false] } := by
  rw [whileLoop]
  simp [hf, hr, hp]

theorem whileLoop_shortWrite {σ : Type} (d : Driver σ) (inRep : InRep) (outRep : OutRep)
    (rStream : ReadStream) (wStream : WriteStream) (processCall : ProcessCallback σ)
    (f : Nat) (s : σ) (hf : 0 < f)
    (hr : (rStream.read d inRep s (toUint16 (numFrames f))).2 = toUint16 (numFrames f))
    (hp : (processCall (rStream.read d inRep s (toUint16 (numFrames f))).1
      (toUint16 (numFrames f))).2 = true)
    (hw : (wStream.write d outRep (processCall (rStream.read d inRep s
      (toUint16 (numFrames f))).1 (toUint16 (numFrames f))).1
      (toUint16 (numFrames f))).2 ≠ toUint16 (numFrames f)) :
    whileLoop d inRep outRep rStream wStream processCall f s =
      { state := (wStream.write d outRep (processCall (rStream.read d inRep s
          (toUint16 (numFrames f))).1 (toUint16 (numFrames f))).1
          (toUint16 (numFrames f))).1
        framesLeft := f
        events := [Event.read rStream.base.sfd_ (toUint16 (numFrames f))
            (toUint16 (numFrames f)),
          Event.process (toUint16 (numFrames f)) true,
          Event.write wStream.base.sfd_ (toUint16 (numFrames f))
            (wStream.write d outRep (processCall (rStream.read d inRep s
              (toUint16 (numFrames f))).1 (toUint16 (numFrames f))).1
              (toUint16 (numFrames f))).2] } := by
  rw [whileLoop]
  simp [hf, hr, hp, hw]

theorem whileLoop_block {σ : Type} (d : Driver σ) (inRep : InRep) (outRep : OutRep)
    (rStream : ReadStream) (wStream : WriteStream) (processCall : ProcessCallback σ)
    (f : Nat) (s : σ) (hf : 0 < f)
    (hr : (rStream.read d inRep s (toUint16 (numFrames f))).2 = toUint16 (numFrames f))
    (hp : (processCall (rStream.read d inRep s (toUint16 (numFrames f))).1
      (toUint16 (numFrames f))).2 = true)
    (hw : (wStream.write d outRep (processCall (rStream.read d inRep s
      (toUint16 (numFrames f))).1 (toUint16 (numFrames f))).1
      (toUint16 (numFrames f))).2 = toUint16 (numFrames f)) :
    whileLoop d inRep outRep rStream wStream processCall f s =
      LoopResult.after
        [Event.read rStream.base.sfd_ (toUint16 (numFrames f)) (toUint16 (numFrames f)),
          Event.process (toUint16 (numFrames f)) true,
          Event.write wStream.base.sfd_ (toUint16 (numFrames f)) (toUint16 (numFrames f))]
        (whileLoop d inRep outRep rStream wStream processCall
          (toUint16 ((f : Int) - numFrames f))
          (wStream.write d outRep (processCall (rStream.read d inRep s
            (toUint16 (numFrames f))).1 (toUint16 (numFrames f))).1
            (toUint16 (numFrames f))).1) := by
  rw [whileLoop]
  simp [hf, hr, hp, hw]

/-! ## The shape of the log of the block loop -/

theorem LoopResult.after_state {σ : Type} (evs : List Event) (rest : LoopResult σ) :
    (LoopResult.after evs rest).state = rest.state := rfl

theorem LoopResult.after_framesLeft {σ : Type} (evs : List Event) (rest : LoopResult σ) :
    (LoopResult.after evs rest).framesLeft = rest.framesLeft := rfl

theorem LoopResult.after_events {σ : Type} (evs : List Event) (rest : LoopResult σ) :
    (LoopResult.after evs rest).events = evs ++ rest.events := rfl

theorem whileLoop_trace {σ : Type} (d : Driver σ) (inRep : InRep) (outRep : OutRep)
    (rStream : ReadStream) (wStream : WriteStream) (processCall : ProcessCallback σ) :
    ∀ (f : Nat) (s : σ), LoopTrace rStream.base.sfd_ wStream.base.sfd_ f
      (whileLoop d inRep outRep rStream wStream processCall f s).framesLeft
      (whileLoop d inRep outRep rStream wStream processCall f s).events := by
  intro f
  induction f using Nat.strong_induction_on with
  | _ f ih =>
    intro s
    rcases Nat.eq_zero_or_pos f with rfl | hf
    · rw [whileLoop_zero]
      exact LoopTrace.done
    · by_cases hr : (rStream.read d inRep s (toUint16 (numFrames f))).2 = toUint16 (numFrames f)
      · by_cases hp : (processCall (rStream.read d inRep s (toUint16 (numFrames f))).1
            (toUint16 (numFrames f))).2 = true
        · by_cases hw : (wStream.write d outRep (processCall (rStream.read d inRep s
              (toUint16 (numFrames f))).1 (toUint16 (numFrames f))).1
              (toUint16 (numFrames f))).2 = toUint16 (numFrames f)
          · rw [whileLoop_block d inRep outRep rStream wStream processCall f s hf hr hp hw]
            rw [LoopResult.after_framesLeft, LoopResult.after_events, List.cons_append,
              List.cons_append, List.cons_append, List.nil_append]
            exact LoopTrace.block f (toUint16 (numFrames f))
              (toUint16 ((f : Int) - numFrames f)) _ _ hf rfl rfl
              (ih _ (framesLeft_next_lt f hf) _)
          · rw [whileLoop_shortWrite d inRep outRep rStream wStream processCall f s hf hr hp hw]
            exact LoopTrace.shortWrite f (toUint16 (numFrames f)) _ hf rfl hw
        · rw [whileLoop_rejected d inRep outRep rStream wStream processCall f s hf hr
            (by simpa using hp)]
          exact LoopTrace.rejected f (toUint16 (numFrames f)) hf rfl
      · rw [whileLoop_shortRead d inRep outRep rStream wStream processCall f s hf hr]
        exact LoopTrace.shortRead f (toUint16 (numFrames f)) _ hf rfl hr

theorem LoopTrace.exit_zero_iff {r w : Int} {f f' : Nat} {l : List Event}
    (h : LoopTrace r w f f' l) :
    f' = 0 ↔ ((∀ sfd n ret, Event.read sfd n ret ∈ l → ret = n) ∧
      (∀ n ok, Event.process n ok ∈ l → ok = true) ∧
      (∀ sfd n ret, Event.write sfd n ret ∈ l → ret = n)) := by
  induction h with
  | done => simp
  | shortRead f n ret hf hn hret =>
    constructor
    · intro h0
      omega
    · intro h
      exact absurd (h.1 r n ret (by simp)) hret
  | rejected f n hf hn =>
    constructor
    · intro h0
      omega
    · intro h
      exact absurd (h.2.1 n false (by simp)) (by simp)
  | shortWrite f n ret hf hn hret =>
    constructor
    · intro h0
      omega
    · intro h
      exact absurd (h.2.2 w n ret (by simp)) hret
  | block f n f₁ f' rest hf hn hf₁ _ ih =>
    rw [ih]
    constructor
    · rintro ⟨h1, h2, h3⟩
      refine ⟨?_, ?_, ?_⟩
      · intro sfd m ret hm
        simp only [List.mem_cons] at hm
        rcases hm with hm | hm | hm | hm
        · injection hm with _ e2 e3
          rw [e3, e2]
        · cases hm
        · cases hm
        · exact h1 sfd m ret hm
      · intro m ok hm
        simp only [List.mem_cons] at hm
        rcases hm with hm | hm | hm | hm
        · cases hm
        · injection hm with _ e2
        · cases hm
        · exact h2 m ok hm
      · intro sfd m ret hm
        simp only [List.mem_cons] at hm
        rcases hm with hm | hm | hm | hm
        · cases hm
        · cases hm
        · injection hm with _ e2 e3
          rw [e3, e2]
        · exact h3 sfd m ret hm
    · rintro ⟨h1, h2, h3⟩
      refine ⟨?_, ?_, ?_⟩
      · intro sfd m ret hm
        exact h1 sfd m ret (by simp [hm])
      · intro m ok hm
        exact h2 m ok (by simp [hm])
      · intro sfd m ret hm
        exact h3 sfd m ret (by simp [hm])

theorem LoopTrace.sums_of_exit_zero {r w : Int} {f f' : Nat} {l : List Event}
    (h : LoopTrace r w f f' l) (hf' : f' = 0) (hf : f < 4294967296) :
    (readRequests l).sum = f ∧ (processRequests l).sum = f ∧
      (writeRequests l).sum = f ∧ framesWritten l = f := by
  induction h with
  | done => simp [readRequests, processRequests, writeRequests, framesWritten]
  | shortRead f n ret hpos hn hret => omega
  | rejected f n hpos hn => omega
  | shortWrite f n ret hpos hn hret => omega
  | block f n f₁ f' rest hpos hn hf₁ _ ih =>
    have hlt : f₁ < 4294967296 := by
      rw [hf₁]
      exact toUint16_lt _
    have hadd := framesLeft_next_add f hf
    rw [← hn, ← hf₁] at hadd
    obtain ⟨i1, i2, i3, i4⟩ := ih hf' hlt
    simp only [readRequests, processRequests, writeRequests, framesWritten, List.sum_cons]
    omega

theorem LoopTrace.rejection_last {r w : Int} {f f' : Nat} {l : List Event}
    (h : LoopTrace r w f f' l) (m : Nat) (hm : Event.process m false ∈ l) :
    f' ≠ 0 ∧ ∃ pre, l = pre ++ [Event.process m false] := by
  induction h with
  | done => simp at hm
  | shortRead f n ret hpos hn hret => simp at hm
  | rejected f n hpos hn =>
    simp at hm
    subst hm
    exact ⟨by omega, [Event.read r m m], rfl⟩
  | shortWrite f n ret hpos hn hret => simp at hm
  | block f n f₁ f' rest hpos hn hf₁ _ ih =>
    simp at hm
    obtain ⟨h0, pre, hpre⟩ := ih hm
    refine ⟨h0, Event.read r n n :: Event.process n true :: Event.write w n n :: pre, ?_⟩
    rw [hpre]
    rfl

theorem LoopTrace.first_rejected {r w : Int} {f f' : Nat} {l : List Event}
    (h : LoopTrace r w f f' l) (hfirst : firstProcessResult l = some false) :
    writeRequests l = [] ∧ framesWritten l = 0 := by
  cases h with
  | done => simp [writeRequests, framesWritten]
  | shortRead n ret hpos hn hret => simp [writeRequests, framesWritten]
  | rejected n hpos hn => simp [writeRequests, framesWritten]
  | shortWrite n ret hpos hn hret => simp [firstProcessResult] at hfirst
  | block n f₁ rest hpos hn hf₁ _ => simp [firstProcessResult] at hfirst

/-! ## The stream overload in terms of its loop -/

theorem openAndProcess_state {σ : Type} (d : Driver σ) (inRep : InRep) (outRep : OutRep)
    (rStream : ReadStream) (wStream : WriteStream) (processCall : ProcessCallback σ) (s : σ) :
    (openAndProcess d inRep outRep rStream wStream processCall s).state =
      (whileLoop d inRep outRep rStream wStream processCall
        (rStream.base.getNumFrames d s) s).state := rfl

theorem openAndProcess_result {σ : Type} (d : Driver σ) (inRep : InRep) (outRep : OutRep)
    (rStream : ReadStream) (wStream : WriteStream) (processCall : ProcessCallback σ) (s : σ) :
    (openAndProcess d inRep outRep rStream wStream processCall s).result =
      decide ((whileLoop d inRep outRep rStream wStream processCall
        (rStream.base.getNumFrames d s) s).framesLeft = 0) := rfl

theorem openAndProcess_events {σ : Type} (d : Driver σ) (inRep : InRep) (outRep : OutRep)
    (rStream : ReadStream) (wStream : WriteStream) (processCall : ProcessCallback σ) (s : σ) :
    (openAndProcess d inRep outRep rStream wStream processCall s).events =
      Event.sndSize rStream.base.sfd_ (rStream.base.getNumFrames d s) ::
        (whileLoop d inRep outRep rStream wStream processCall
          (rStream.base.getNumFrames d s) s).events := rfl

theorem getNumFrames_lt {σ : Type} (d : Driver σ) (b : BaseStream) (s : σ) :
    b.getNumFrames d s < 4294967296 :=
  toUint16_lt _

/-- The query of the frame count, which opens every log, is neither a read, nor a
transform call, nor a write. -/
theorem steps_succeed_cons_sndSize (sfd : Int) (N : Nat) (l : List Event) :
    ((∀ fd n ret, Event.read fd n ret ∈ Event.sndSize sfd N :: l → ret = n) ∧
      (∀ n ok, Event.process n ok ∈ Event.sndSize sfd N :: l → ok = true) ∧
      (∀ fd n ret, Event.write fd n ret ∈ Event.sndSize sfd N :: l → ret = n)) ↔
    ((∀ fd n ret, Event.read fd n ret ∈ l → ret = n) ∧
      (∀ n ok, Event.process n ok ∈ l → ok = true) ∧
      (∀ fd n ret, Event.write fd n ret ∈ l → ret = n)) := by
  simp

theorem run_true_iff (r w : Int) (N f' : Nat) (l : List Event)
    (h : LoopTrace r w N f' l) (hN : N < 4294967296) :
    (decide (f' = 0) = true ↔
      ((∀ fd n ret, Event.read fd n ret ∈ Event.sndSize r N :: l → ret = n) ∧
        (∀ n ok, Event.process n ok ∈ Event.sndSize r N :: l → ok = true) ∧
        (∀ fd n ret, Event.write fd n ret ∈ Event.sndSize r N :: l → ret = n))) ∧
    (decide (f' = 0) = true →
      (readRequests (Event.sndSize r N :: l)).sum = N ∧
        (processRequests (Event.sndSize r N :: l)).sum = N ∧
        (writeRequests (Event.sndSize r N :: l)).sum = N ∧
        framesWritten (Event.sndSize r N :: l) = N) := by
  constructor
  · rw [steps_succeed_cons_sndSize, decide_eq_true_iff]
    exact h.exit_zero_iff
  · intro h0
    rw [decide_eq_true_iff] at h0
    exact h.sums_of_exit_zero h0 hN

/-- C1: the run of the stream overload of `openAndProcess` returns `true` if and only if
every read of its log returned the requested frame count, every transform call returned
`true` and every write returned the requested frame count; and when it returns `true` the
blocks read, transformed and written add up to the frame count of the source, so no block
up to the final one was skipped. A run that stops early therefore returns `false`. -/
theorem openAndProcess_true_iff_every_step_succeeds {σ : Type} (d : Driver σ) (inRep : InRep)
    (outRep : OutRep) (rStream : ReadStream) (wStream : WriteStream)
    (processCall : ProcessCallback σ) (s : σ) :
    ((openAndProcess d inRep outRep rStream wStream processCall s).result = true ↔
      ((∀ fd n ret, Event.read fd n ret ∈
          (openAndProcess d inRep outRep rStream wStream processCall s).events → ret = n) ∧
        (∀ n ok, Event.process n ok ∈
          (openAndProcess d inRep outRep rStream wStream processCall s).events → ok = true) ∧
        (∀ fd n ret, Event.write fd n ret ∈
          (openAndProcess d inRep outRep rStream wStream processCall s).events → ret = n))) ∧
    ((openAndProcess d inRep outRep rStream wStream processCall s).result = true →
      (readRequests (openAndProcess d inRep outRep rStream wStream processCall s).events).sum =
          rStream.base.getNumFrames d s ∧
        (processRequests
          (openAndProcess d inRep outRep rStream wStream processCall s).events).sum =
          rStream.base.getNumFrames d s ∧
        (writeRequests
          (openAndProcess d inRep outRep rStream wStream processCall s).events).sum =
          rStream.base.getNumFrames d s ∧
        framesWritten (openAndProcess d inRep outRep rStream wStream processCall s).events =
          rStream.base.getNumFrames d s) := by
  rw [openAndProcess_result, openAndProcess_events]
  exact run_true_iff rStream.base.sfd_ wStream.base.sfd_ (rStream.base.getNumFrames d s)
    (whileLoop d inRep outRep rStream wStream processCall
      (rStream.base.getNumFrames d s) s).framesLeft
    (whileLoop d inRep outRep rStream wStream processCall
      (rStream.base.getNumFrames d s) s).events
    (whileLoop_trace d inRep outRep rStream wStream processCall _ s)
    (getNumFrames_lt d rStream.base s)

/-! ## The block schedule -/

theorem blockSchedule_zero : blockSchedule 0 = [] := by
  simp [blockSchedule]

theorem blockSchedule_pos (f : Nat) (hf : 0 < f) :
    blockSchedule f = min f 512 :: blockSchedule (f - min f 512) := by
  by_cases hlt : f < 512
  · have h1 : f / 512 = 0 := Nat.div_eq_of_lt hlt
    have h2 : f % 512 = f := Nat.mod_eq_of_lt hlt
    have h3 : min f 512 = f := Nat.min_eq_left (Nat.le_of_lt hlt)
    have h4 : f ≠ 0 := by omega
    rw [h3, Nat.sub_self, blockSchedule_zero]
    simp [blockSchedule, h1, h2, h4]
  · have h3 : min f 512 = 512 := Nat.min_eq_right (by omega)
    have h1 : f / 512 = (f - 512) / 512 + 1 := by omega
    have h2 : (f - 512) % 512 = f % 512 := by omega
    rw [h3]
    unfold blockSchedule
    rw [h1, h2, List.replicate_succ, List.cons_append]

theorem blockSchedule_length (N : Nat) : (blockSchedule N).length = (N + 511) / 512 := by
  unfold blockSchedule
  by_cases h : N % 512 = 0
  · simp only [h, if_true, List.length_append, List.length_replicate, List.length_nil]
    omega
  · simp only [h, if_false, List.length_append, List.length_replicate, List.length_singleton]
    omega

theorem blockSchedule_sum (N : Nat) : (blockSchedule N).sum = N := by
  unfold blockSchedule
  by_cases h : N % 512 = 0
  · simp only [h, if_true, List.sum_append, List.sum_replicate, List.sum_nil, smul_eq_mul]
    omega
  · simp only [h, if_false, List.sum_append, List.sum_replicate, List.sum_cons, List.sum_nil,
      smul_eq_mul]
    omega

theorem readRequests_fullRun (r w : Int) (l : List Nat) : readRequests (fullRun r w l) = l := by
  induction l with
  | nil => rfl
  | cons n ns ih => simp [fullRun, readRequests, ih]

theorem processRequests_fullRun (r w : Int) (l : List Nat) :
    processRequests (fullRun r w l) = l := by
  induction l with
  | nil => rfl
  | cons n ns ih => simp [fullRun, processRequests, ih]

theorem writeRequests_fullRun (r w : Int) (l : List Nat) :
    writeRequests (fullRun r w l) = l := by
  induction l with
  | nil => rfl
  | cons n ns ih => simp [fullRun, writeRequests, ih]

/-! ## Runs in which every step succeeds -/

theorem whileLoop_cooperative {σ : Type} (d : Driver σ) (inRep : InRep) (outRep : OutRep)
    (rStream : ReadStream) (wStream : WriteStream) (processCall : ProcessCallback σ)
    (hr : ∀ (s : σ) (n : Nat), n ≤ 512 → (rStream.read d inRep s n).2 = n)
    (hp : ∀ (s : σ) (n : Nat), n ≤ 512 → (processCall s n).2 = true)
    (hw : ∀ (s : σ) (n : Nat), n ≤ 512 → (wStream.write d outRep s n).2 = n) :
    ∀ (f : Nat), f < 2147483648 → ∀ (s : σ),
      (whileLoop d inRep outRep rStream wStream processCall f s).framesLeft = 0 ∧
      (whileLoop d inRep outRep rStream wStream processCall f s).events =
        fullRun rStream.base.sfd_ wStream.base.sfd_ (blockSchedule f) := by
  intro f
  induction f using Nat.strong_induction_on with
  | _ f ih =>
    intro hlt s
    rcases Nat.eq_zero_or_pos f with rfl | hf
    · rw [whileLoop_zero, blockSchedule_zero]
      exact ⟨rfl, rfl⟩
    · have hn : toUint16 (numFrames f) = min f 512 := toUint16_numFrames_small f hlt
      have hle : toUint16 (numFrames f) ≤ 512 := by
        rw [hn]
        exact Nat.min_le_right f 512
      have hnext : toUint16 ((f : Int) - numFrames f) = f - min f 512 :=
        framesLeft_next_small f hlt
      have hdec : f - min f 512 < f := by
        rw [← hnext]
        exact framesLeft_next_lt f hf
      rw [whileLoop_block d inRep outRep rStream wStream processCall f s hf (hr _ _ hle)
        (hp _ _ hle) (hw _ _ hle), LoopResult.after_framesLeft, LoopResult.after_events,
        List.cons_append, List.cons_append, List.cons_append, List.nil_append, hnext,
        blockSchedule_pos f hf, hn]
      obtain ⟨i1, i2⟩ := ih (f - min f 512) hdec (by omega)
        ((wStream.write d outRep (processCall (rStream.read d inRep s
          (min f 512)).1 (min f 512)).1 (min f 512)).1)
      exact ⟨i1, by rw [i2]; rfl⟩

/-! ## The example driver -/

theorem toy_getNumFrames (size : Int) (oe ce : Option Int) (sk : Int) (b : BaseStream)
    (s : ToyWorld) : b.getNumFrames (toyDriver size oe ce sk) s = toUint16 size := rfl

theorem toy_read (size : Int) (oe ce : Option Int) (sk : Int) (r : ReadStream) (rep : InRep)
    (s : ToyWorld) (n : Nat) (h : n < 4294967296) :
    r.read (toyDriver size oe ce sk) rep s n = (s, n) := by
  cases rep <;> simp [ReadStream.read, toyDriver, toUint16_of_lt n h]

theorem toy_write (size : Int) (oe ce : Option Int) (sk : Int) (w : WriteStream) (rep : OutRep)
    (s : ToyWorld) (n : Nat) (h : n < 4294967296) :
    w.write (toyDriver size oe ce sk) rep s n = (s, n) := by
  cases rep <;> simp [WriteStream.write, toyDriver, toUint16_of_lt n h]

/-! ## Requests of more than a block -/

theorem toy_oversized_loop (oe ce : Option Int) (sk : Int) :
    (whileLoop (toyDriver (-1) oe ce sk) InRep.float OutRep.float toyReadStream
      toyWriteStream toyAccept 4294967295 toyWorld).events =
      [Event.read 0 4294967295 4294967295, Event.process 4294967295 true,
        Event.write 1 4294967295 4294967295] := by
  have hn : toUint16 (numFrames 4294967295) = 4294967295 :=
    toUint16_numFrames_large 4294967295 (by omega) (by omega)
  have hnext : toUint16 (((4294967295 : Nat) : Int) - numFrames 4294967295) = 0 :=
    framesLeft_next_large 4294967295 (by omega) (by omega)
  rw [whileLoop_block (toyDriver (-1) oe ce sk) InRep.float OutRep.float toyReadStream
    toyWriteStream toyAccept 4294967295 toyWorld (by omega)
    (by rw [hn, toy_read _ _ _ _ _ _ _ _ (by omega)])
    (by rw [hn]; rfl)
    (by rw [hn, toy_write _ _ _ _ _ _ _ _ (by omega)]),
    LoopResult.after_events, hnext, whileLoop_zero, hn]
  rfl

/-- C2, at the failing input: a source whose size query answers -1 reports 4294967295
frames, and the first iteration of `openAndProcess` asks `read` and `write` for all
4294967295 of them, not for `min (4294967295, 512) = 512`. -/
theorem openAndProcess_requests_more_than_a_block :
    toyReadStream.base.getNumFrames (toyDriver (-1) none none 0) toyWorld = 4294967295 ∧
    (openAndProcess (toyDriver (-1) none none 0) InRep.float OutRep.float toyReadStream
      toyWriteStream toyAccept toyWorld).events =
      [Event.sndSize 0 4294967295, Event.read 0 4294967295 4294967295,
        Event.process 4294967295 true, Event.write 1 4294967295 4294967295] ∧
    min 4294967295 kBlockSize = 512 := by
  have hN : toUint16 (-1) = 4294967295 := by
    unfold toUint16
    omega
  refine ⟨?_, ?_, ?_⟩
  · rw [toy_getNumFrames, hN]
  · rw [openAndProcess_events, toy_getNumFrames, hN, toy_oversized_loop]
    rfl
  · unfold kBlockSize
    omega

/-- The full run for a driver and a transform that succeed in every world state on every
request of at most a block: a special case of the full run of a file. -/
theorem openAndProcess_full_run_of_cooperative {σ : Type} (d : Driver σ) (inRep : InRep)
    (outRep : OutRep) (rStream : ReadStream) (wStream : WriteStream)
    (processCall : ProcessCallback σ) (s : σ)
    (hN : rStream.base.getNumFrames d s < 2147483648)
    (hr : ∀ (s' : σ) (n : Nat), n ≤ 512 → (rStream.read d inRep s' n).2 = n)
    (hp : ∀ (s' : σ) (n : Nat), n ≤ 512 → (processCall s' n).2 = true)
    (hw : ∀ (s' : σ) (n : Nat), n ≤ 512 → (wStream.write d outRep s' n).2 = n) :
    (openAndProcess d inRep outRep rStream wStream processCall s).result = true ∧
    (openAndProcess d inRep outRep rStream wStream processCall s).events =
      Event.sndSize rStream.base.sfd_ (rStream.base.getNumFrames d s) ::
        fullRun rStream.base.sfd_ wStream.base.sfd_
          (blockSchedule (rStream.base.getNumFrames d s)) ∧
    (blockSchedule (rStream.base.getNumFrames d s)).length =
      (rStream.base.getNumFrames d s + 511) / 512 ∧
    writeRequests (openAndProcess d inRep outRep rStream wStream processCall s).events =
      blockSchedule (rStream.base.getNumFrames d s) ∧
    (writeRequests (openAndProcess d inRep outRep rStream wStream processCall s).events).sum =
      rStream.base.getNumFrames d s ∧
    blockSchedule 1000 = [512, 488] := by
  obtain ⟨h1, h2⟩ := whileLoop_cooperative d inRep outRep rStream wStream processCall hr hp hw
    (rStream.base.getNumFrames d s) hN s
  rw [openAndProcess_result, openAndProcess_events, h1, h2]
  refine ⟨by simp, rfl, blockSchedule_length _, ?_, ?_, by decide⟩
  · simp [writeRequests, writeRequests_fullRun]
  · simp [writeRequests, writeRequests_fullRun, blockSchedule_sum]

/-- C4: when the source reports zero frames, `openAndProcess` returns `true`, its only
call is the query of the frame count (no read, no transform call, no write), and the
world is left as it was, whatever the driver and the transform would have answered. -/
theorem openAndProcess_zero_frames {σ : Type} (d : Driver σ) (inRep : InRep)
    (outRep : OutRep) (rStream : ReadStream) (wStream : WriteStream)
    (processCall : ProcessCallback σ) (s : σ)
    (h0 : rStream.base.getNumFrames d s = 0) :
    (openAndProcess d inRep outRep rStream wStream processCall s).result = true ∧
    (openAndProcess d inRep outRep rStream wStream processCall s).events =
      [Event.sndSize rStream.base.sfd_ 0] ∧
    (openAndProcess d inRep outRep rStream wStream processCall s).state = s := by
  rw [openAndProcess_result, openAndProcess_events, openAndProcess_state, h0, whileLoop_zero]
  exact ⟨by simp, rfl, rfl⟩

theorem openAndProcess_zero_frames_witness :
    toyReadStream.base.getNumFrames (toyDriver 0 none none 0) toyWorld = 0 ∧
    ((openAndProcess (toyDriver 0 none none 0) InRep.float OutRep.float toyReadStream
        toyWriteStream toyReject toyWorld).result = true ∧
      (openAndProcess (toyDriver 0 none none 0) InRep.float OutRep.float toyReadStream
        toyWriteStream toyReject toyWorld).events = [Event.sndSize toyReadStream.base.sfd_ 0] ∧
      (openAndProcess (toyDriver 0 none none 0) InRep.float OutRep.float toyReadStream
        toyWriteStream toyReject toyWorld).state = toyWorld) := by
  have h0 : toyReadStream.base.getNumFrames (toyDriver 0 none none 0) toyWorld = 0 := by
    rw [toy_getNumFrames]
    exact toUint16_of_lt 0 (by omega)
  exact ⟨h0, openAndProcess_zero_frames (toyDriver 0 none none 0) InRep.float OutRep.float
    toyReadStream toyWriteStream toyReject toyWorld h0⟩

/-! ## Rejection by the transform -/

theorem rejection_stops_run (r w : Int) (N f' : Nat) (l : List Event)
    (h : LoopTrace r w N f' l) (n : Nat)
    (hrej : Event.process n false ∈ Event.sndSize r N :: l) :
    decide (f' = 0) = false ∧
    (∃ pre, Event.sndSize r N :: l = pre ++ [Event.process n false]) ∧
    (firstProcessResult (Event.sndSize r N :: l) = some false →
      writeRequests (Event.sndSize r N :: l) = [] ∧
        framesWritten (Event.sndSize r N :: l) = 0) := by
  have hmem : Event.process n false ∈ l := by
    simpa using hrej
  obtain ⟨h0, pre, hpre⟩ := h.rejection_last n hmem
  refine ⟨by simpa using h0, ⟨Event.sndSize r N :: pre, by rw [hpre]; rfl⟩, ?_⟩
  intro hfirst
  exact h.first_rejected hfirst

theorem toy_reject_events :
    (openAndProcess (toyDriver 1000 none none 0) InRep.float OutRep.float toyReadStream
      toyWriteStream toyReject toyWorld).events =
      [Event.sndSize 0 1000, Event.read 0 512 512, Event.process 512 false] := by
  have hN : toUint16 1000 = 1000 := toUint16_of_lt 1000 (by omega)
  have hn : toUint16 (numFrames 1000) = 512 := by
    rw [toUint16_numFrames_small 1000 (by omega)]
    rfl
  rw [openAndProcess_events, toy_getNumFrames, hN,
    whileLoop_rejected (toyDriver 1000 none none 0) InRep.float OutRep.float toyReadStream
      toyWriteStream toyReject 1000 toyWorld (by omega)
      (by rw [hn, toy_read _ _ _ _ _ _ _ _ (by omega)])
      (by rfl), hn]
  rfl

/-- C5: when the transform returns `false` on a block, `openAndProcess` returns `false`
and the rejection is the last call of the run: the rejected block is not written and no
further read, transform call or write follows. If moreover the first transform call of the
run is a rejection, the run makes no write at all and zero frames are written. -/
theorem openAndProcess_rejection_stops {σ : Type} (d : Driver σ) (inRep : InRep)
    (outRep : OutRep) (rStream : ReadStream) (wStream : WriteStream)
    (processCall : ProcessCallback σ) (s : σ) (n : Nat)
    (hrej : Event.process n false ∈
      (openAndProcess d inRep outRep rStream wStream processCall s).events) :
    (openAndProcess d inRep outRep rStream wStream processCall s).result = false ∧
    (∃ pre, (openAndProcess d inRep outRep rStream wStream processCall s).events =
      pre ++ [Event.process n false]) ∧
    (firstProcessResult (openAndProcess d inRep outRep rStream wStream processCall s).events =
        some false →
      writeRequests (openAndProcess d inRep outRep rStream wStream processCall s).events = [] ∧
        framesWritten (openAndProcess d inRep outRep rStream wStream processCall s).events =
          0) := by
  rw [openAndProcess_events] at hrej
  rw [openAndProcess_result, openAndProcess_events]
  exact rejection_stops_run rStream.base.sfd_ wStream.base.sfd_
    (rStream.base.getNumFrames d s)
    (whileLoop d inRep outRep rStream wStream processCall
      (rStream.base.getNumFrames d s) s).framesLeft
    (whileLoop d inRep outRep rStream wStream processCall
      (rStream.base.getNumFrames d s) s).events
    (whileLoop_trace d inRep outRep rStream wStream processCall _ s) n hrej

theorem openAndProcess_rejection_stops_witness :
    Event.process 512 false ∈
      (openAndProcess (toyDriver 1000 none none 0) InRep.float OutRep.float toyReadStream
        toyWriteStream toyReject toyWorld).events ∧
    ((openAndProcess (toyDriver 1000 none none 0) InRep.float OutRep.float toyReadStream
        toyWriteStream toyReject toyWorld).result = false ∧
      (∃ pre, (openAndProcess (toyDriver 1000 none none 0) InRep.float OutRep.float
        toyReadStream toyWriteStream toyReject toyWorld).events =
        pre ++ [Event.process 512 false]) ∧
      (firstProcessResult (openAndProcess (toyDriver 1000 none none 0) InRep.float
          OutRep.float toyReadStream toyWriteStream toyReject toyWorld).events = some false →
        writeRequests (openAndProcess (toyDriver 1000 none none 0) InRep.float OutRep.float
          toyReadStream toyWriteStream toyReject toyWorld).events = [] ∧
        framesWritten (openAndProcess (toyDriver 1000 none none 0) InRep.float OutRep.float
          toyReadStream toyWriteStream toyReject toyWorld).events = 0)) ∧
    firstProcessResult (openAndProcess (toyDriver 1000 none none 0) InRep.float
      OutRep.float toyReadStream toyWriteStream toyReject toyWorld).events = some false := by
  have hmem : Event.process 512 false ∈
      (openAndProcess (toyDriver 1000 none none 0) InRep.float OutRep.float toyReadStream
        toyWriteStream toyReject toyWorld).events := by
    rw [toy_reject_events]
    simp
  exact ⟨hmem,
    openAndProcess_rejection_stops (toyDriver 1000 none none 0) InRep.float OutRep.float
      toyReadStream toyWriteStream toyReject toyWorld 512 hmem,
    by rw [toy_reject_events]; rfl⟩

/-! ## Failure codes of the driver -/

/-- C6, at the failing input: when the driver's open (or create) fails with the error
code -2, `FileSystem::open` (`FileSystem::create`) does not return a null stream: it
returns a stream object constructed around the failed descriptor -2. -/
theorem open_wraps_failed_descriptor :
    («open» (toyDriver 1000 (some (-2)) none 0) toyWorld (OpenParams.mk1 "in.wav")).stream =
      some ⟨⟨-2, Audio.getCDDAFormat⟩⟩ ∧
    (create (toyDriver 1000 none (some (-2)) 0) toyWorld (CreateParams.mk1 "out.wav")).stream =
      some ⟨⟨-2, Audio.getCDDAFormat⟩⟩ := by
  constructor
  · simp [«open», toyDriver, ReadStream.create]
  · simp [create, toyDriver, WriteStream.create, CreateParams.mk1, CreateParams.mk2,
      CreateParams.getProperties]

/-- C7, at the failing input: when the driver's seek succeeds, that is returns
`PSF_E_NOERROR`, `setPosition` returns `false`; when it fails with a negative error code
(here -1), `setPosition` returns `true`. -/
theorem setPosition_inverts_seek_status :
    (toyReadStream.base.setPosition (toyDriver 1000 none none PSF_E_NOERROR) toyWorld 10).2 =
      false ∧
    (toyReadStream.base.setPosition (toyDriver 1000 none none (-1)) toyWorld 10).2 = true := by
  constructor
  · simp [BaseStream.setPosition, toyDriver, toBool, PSF_E_NOERROR]
  · simp [BaseStream.setPosition, toyDriver, toBool]

/-! ## The parameter-object overload -/

theorem openAndProcessParams_open_failed {σ : Type} (d : Driver σ) (inRep : InRep)
    (outRep : OutRep) (oParams : OpenParams) (cParams : CreateParams)
    (processCall : ProcessCallback σ) (s : σ)
    (ho : («open» d s oParams).stream = none) :
    openAndProcessParams d inRep outRep oParams cParams processCall s =
      { state := («open» d s oParams).state, result := false,
        events := («open» d s oParams).events } := by
  unfold openAndProcessParams
  simp only [ho]

theorem openAndProcessParams_create_failed {σ : Type} (d : Driver σ) (inRep : InRep)
    (outRep : OutRep) (oParams : OpenParams) (cParams : CreateParams)
    (processCall : ProcessCallback σ) (s : σ) (rStream : ReadStream)
    (ho : («open» d s oParams).stream = some rStream)
    (hc : (create d («open» d s oParams).state cParams).stream = none) :
    openAndProcessParams d inRep outRep oParams cParams processCall s =
      { state := (rStream.base.destroy d (create d («open» d s oParams).state cParams).state).1
        result := false
        events := («open» d s oParams).events ++
          (create d («open» d s oParams).state cParams).events ++
          (rStream.base.destroy d (create d («open» d s oParams).state cParams).state).2 } := by
  unfold openAndProcessParams
  simp only [ho, hc]

theorem openAndProcessParams_both_opened {σ : Type} (d : Driver σ) (inRep : InRep)
    (outRep : OutRep) (oParams : OpenParams) (cParams : CreateParams)
    (processCall : ProcessCallback σ) (s : σ) (rStream : ReadStream) (wStream : WriteStream)
    (ho : («open» d s oParams).stream = some rStream)
    (hc : (create d («open» d s oParams).state cParams).stream = some wStream) :
    openAndProcessParams d inRep outRep oParams cParams processCall s =
      { state := (rStream.base.destroy d (wStream.base.destroy d
          (openAndProcess d inRep outRep rStream wStream processCall
            (create d («open» d s oParams).state cParams).state).state).1).1
        result := (openAndProcess d inRep outRep rStream wStream processCall
          (create d («open» d s oParams).state cParams).state).result
        events := («open» d s oParams).events ++
          (create d («open» d s oParams).state cParams).events ++
          (openAndProcess d inRep outRep rStream wStream processCall
            (create d («open» d s oParams).state cParams).state).events ++
          (wStream.base.destroy d
            (openAndProcess d inRep outRep rStream wStream processCall
              (create d («open» d s oParams).state cParams).state).state).2 ++
          (rStream.base.destroy d (wStream.base.destroy d
            (openAndProcess d inRep outRep rStream wStream processCall
              (create d («open» d s oParams).state cParams).state).state).1).2 } := by
  unfold openAndProcessParams
  simp only [ho, hc]

theorem open_events {σ : Type} (d : Driver σ) (s : σ) (params : OpenParams) :
    («open» d s params).events =
      [Event.sndOpen params.getPath (ofBool params.mustRescale)
        (d.psf_sndOpen s params.getPath (ofBool params.mustRescale)).2.1] := by
  unfold «open»
  by_cases h : (d.psf_sndOpen s params.getPath (ofBool params.mustRescale)).2.1 = -1
  · simp only [h, if_true]
  · simp only [h, if_false]

theorem open_state {σ : Type} (d : Driver σ) (s : σ) (params : OpenParams) :
    («open» d s params).state =
      (d.psf_sndOpen s params.getPath (ofBool params.mustRescale)).1 := by
  unfold «open»
  by_cases h : (d.psf_sndOpen s params.getPath (ofBool params.mustRescale)).2.1 = -1
  · simp only [h, if_true]
  · simp only [h, if_false]

theorem open_stream {σ : Type} (d : Driver σ) (s : σ) (params : OpenParams) :
    («open» d s params).stream =
      if (d.psf_sndOpen s params.getPath (ofBool params.mustRescale)).2.1 = -1 then none
      else some ⟨⟨(d.psf_sndOpen s params.getPath (ofBool params.mustRescale)).2.1,
        (d.psf_sndOpen s params.getPath (ofBool params.mustRescale)).2.2⟩⟩ := by
  unfold «open» ReadStream.create
  by_cases h : (d.psf_sndOpen s params.getPath (ofBool params.mustRescale)).2.1 = -1
  · simp only [h, if_true]
  · simp only [h, if_false]

theorem create_events {σ : Type} (d : Driver σ) (s : σ) (params : CreateParams) :
    (create d s params).events =
      [Event.sndCreate params.getPath params.getProperties
        (ofBool params.mustSupportsClippingOfFloats) params.getMinHeader params.getMode
        (d.psf_sndCreate s params.getPath params.getProperties
          (ofBool params.mustSupportsClippingOfFloats) params.getMinHeader
          params.getMode).2] := by
  unfold create
  by_cases h : (d.psf_sndCreate s params.getPath params.getProperties
      (ofBool params.mustSupportsClippingOfFloats) params.getMinHeader params.getMode).2 = -1
  · simp only [h, if_true]
  · simp only [h, if_false]

theorem create_state {σ : Type} (d : Driver σ) (s : σ) (params : CreateParams) :
    (create d s params).state =
      (d.psf_sndCreate s params.getPath params.getProperties
        (ofBool params.mustSupportsClippingOfFloats) params.getMinHeader params.getMode).1 := by
  unfold create
  by_cases h : (d.psf_sndCreate s params.getPath params.getProperties
      (ofBool params.mustSupportsClippingOfFloats) params.getMinHeader params.getMode).2 = -1
  · simp only [h, if_true]
  · simp only [h, if_false]

theorem create_stream {σ : Type} (d : Driver σ) (s : σ) (params : CreateParams) :
    (create d s params).stream =
      if (d.psf_sndCreate s params.getPath params.getProperties
        (ofBool params.mustSupportsClippingOfFloats) params.getMinHeader params.getMode).2 = -1
      then none
      else some ⟨⟨(d.psf_sndCreate s params.getPath params.getProperties
        (ofBool params.mustSupportsClippingOfFloats) params.getMinHeader params.getMode).2,
        params.getProperties⟩⟩ := by
  unfold create WriteStream.create
  by_cases h : (d.psf_sndCreate s params.getPath params.getProperties
      (ofBool params.mustSupportsClippingOfFloats) params.getMinHeader params.getMode).2 = -1
  · simp only [h, if_true]
  · simp only [h, if_false]

/-- The three outcomes of the parameter-object overload of `openAndProcess`, by what
`open` and `create` return. When `open` returns a null stream the result is `false` and the only call made is the driver's
open: the driver's create is not invoked and the transform is not called. When `open`
returns a stream and `create` returns a null stream the result is `false` and the calls
are the driver's open, the driver's create and the close of the source: no read, no
transform call, no write. When both return a stream the result is the result of the
stream overload on these two streams, whose calls are followed by the two closes. -/
theorem openAndProcessParams_outcomes {σ : Type} (d : Driver σ) (inRep : InRep)
    (outRep : OutRep) (oParams : OpenParams) (cParams : CreateParams)
    (processCall : ProcessCallback σ) (s : σ) :
    ((«open» d s oParams).stream = none →
      (openAndProcessParams d inRep outRep oParams cParams processCall s).result = false ∧
      (openAndProcessParams d inRep outRep oParams cParams processCall s).events =
        [Event.sndOpen oParams.getPath (ofBool oParams.mustRescale)
          (d.psf_sndOpen s oParams.getPath (ofBool oParams.mustRescale)).2.1]) ∧
    (∀ rStream : ReadStream, («open» d s oParams).stream = some rStream →
      (create d («open» d s oParams).state cParams).stream = none →
      (openAndProcessParams d inRep outRep oParams cParams processCall s).result = false ∧
      (openAndProcessParams d inRep outRep oParams cParams processCall s).events =
        [Event.sndOpen oParams.getPath (ofBool oParams.mustRescale)
          (d.psf_sndOpen s oParams.getPath (ofBool oParams.mustRescale)).2.1,
          Event.sndCreate cParams.getPath cParams.getProperties
            (ofBool cParams.mustSupportsClippingOfFloats) cParams.getMinHeader cParams.getMode
            (d.psf_sndCreate («open» d s oParams).state cParams.getPath cParams.getProperties
              (ofBool cParams.mustSupportsClippingOfFloats) cParams.getMinHeader
              cParams.getMode).2,
          Event.sndClose rStream.base.sfd_]) ∧
    (∀ (rStream : ReadStream) (wStream : WriteStream),
      («open» d s oParams).stream = some rStream →
      (create d («open» d s oParams).state cParams).stream = some wStream →
      (openAndProcessParams d inRep outRep oParams cParams processCall s).result =
        (openAndProcess d inRep outRep rStream wStream processCall
          (create d («open» d s oParams).state cParams).state).result ∧
      (openAndProcessParams d inRep outRep oParams cParams processCall s).events =
        Event.sndOpen oParams.getPath (ofBool oParams.mustRescale)
          (d.psf_sndOpen s oParams.getPath (ofBool oParams.mustRescale)).2.1 ::
        Event.sndCreate cParams.getPath cParams.getProperties
          (ofBool cParams.mustSupportsClippingOfFloats) cParams.getMinHeader cParams.getMode
          (d.psf_sndCreate («open» d s oParams).state cParams.getPath cParams.getProperties
            (ofBool cParams.mustSupportsClippingOfFloats) cParams.getMinHeader
            cParams.getMode).2 ::
        ((openAndProcess d inRep outRep rStream wStream processCall
          (create d («open» d s oParams).state cParams).state).events ++
          [Event.sndClose wStream.base.sfd_, Event.sndClose rStream.base.sfd_])) := by
  refine ⟨?_, ?_, ?_⟩
  · intro ho
    rw [openAndProcessParams_open_failed d inRep outRep oParams cParams processCall s ho,
      open_events]
    exact ⟨rfl, rfl⟩
  · intro rStream ho hc
    rw [openAndProcessParams_create_failed d inRep outRep oParams cParams processCall s
      rStream ho hc, open_events, create_events]
    exact ⟨rfl, rfl⟩
  · intro rStream wStream ho hc
    rw [openAndProcessParams_both_opened d inRep outRep oParams cParams processCall s
      rStream wStream ho hc, open_events, create_events]
    refine ⟨rfl, ?_⟩
    simp only [BaseStream.destroy, List.cons_append, List.nil_append, List.append_assoc]

theorem toy_open_failed :
    («open» (toyDriver 1000 (some (-1)) none 0) toyWorld toyIn).stream = none := by
  rw [open_stream]
  simp [toyDriver]

theorem toy_open_ok (size : Int) (ce : Option Int) :
    («open» (toyDriver size none ce 0) toyWorld toyIn).stream =
      some ⟨⟨2, Audio.getCDDAFormat⟩⟩ := by
  rw [open_stream]
  simp [toyDriver, toyWorld]

theorem toy_create_failed :
    (create (toyDriver 1000 none (some (-1)) 0)
      («open» (toyDriver 1000 none (some (-1)) 0) toyWorld toyIn).state toyOut).stream =
      none := by
  rw [create_stream]
  simp [toyDriver]

theorem toy_create_ok (size : Int) :
    (create (toyDriver size none none 0)
      («open» (toyDriver size none none 0) toyWorld toyIn).state toyOut).stream =
      some ⟨⟨3, Audio.getCDDAFormat⟩⟩ := by
  rw [create_stream, open_state]
  simp [toyDriver, toyWorld, toyOut, CreateParams.mk1, CreateParams.mk2,
    CreateParams.getProperties]

theorem openAndProcessParams_outcomes_witness :
    ((«open» (toyDriver 1000 (some (-1)) none 0) toyWorld toyIn).stream = none ∧
      (openAndProcessParams (toyDriver 1000 (some (-1)) none 0) InRep.float OutRep.float
        toyIn toyOut toyAccept toyWorld).result = false ∧
      (openAndProcessParams (toyDriver 1000 (some (-1)) none 0) InRep.float OutRep.float
        toyIn toyOut toyAccept toyWorld).events =
        [Event.sndOpen toyIn.getPath (ofBool toyIn.mustRescale)
          ((toyDriver 1000 (some (-1)) none 0).psf_sndOpen toyWorld toyIn.getPath
            (ofBool toyIn.mustRescale)).2.1]) ∧
    ((«open» (toyDriver 1000 none (some (-1)) 0) toyWorld toyIn).stream =
        some ⟨⟨2, Audio.getCDDAFormat⟩⟩ ∧
      (create (toyDriver 1000 none (some (-1)) 0)
        («open» (toyDriver 1000 none (some (-1)) 0) toyWorld toyIn).state toyOut).stream =
        none ∧
      (openAndProcessParams (toyDriver 1000 none (some (-1)) 0) InRep.float OutRep.float
        toyIn toyOut toyAccept toyWorld).result = false) ∧
    ((«open» (toyDriver 1000 none none 0) toyWorld toyIn).stream =
        some ⟨⟨2, Audio.getCDDAFormat⟩⟩ ∧
      (create (toyDriver 1000 none none 0)
        («open» (toyDriver 1000 none none 0) toyWorld toyIn).state toyOut).stream =
        some ⟨⟨3, Audio.getCDDAFormat⟩⟩ ∧
      (openAndProcessParams (toyDriver 1000 none none 0) InRep.float OutRep.float
        toyIn toyOut toyAccept toyWorld).result =
        (openAndProcess (toyDriver 1000 none none 0) InRep.float OutRep.float
          ⟨⟨2, Audio.getCDDAFormat⟩⟩ ⟨⟨3, Audio.getCDDAFormat⟩⟩ toyAccept
          (create (toyDriver 1000 none none 0)
            («open» (toyDriver 1000 none none 0) toyWorld toyIn).state toyOut).state).result) :=
  ⟨⟨toy_open_failed,
      (openAndProcessParams_outcomes (toyDriver 1000 (some (-1)) none 0) InRep.float
        OutRep.float toyIn toyOut toyAccept toyWorld).1 toy_open_failed⟩,
    ⟨toy_open_ok 1000 (some (-1)), toy_create_failed,
      ((openAndProcessParams_outcomes (toyDriver 1000 none (some (-1)) 0) InRep.float
        OutRep.float toyIn toyOut toyAccept toyWorld).2.1 _ (toy_open_ok 1000 (some (-1)))
        toy_create_failed).1⟩,
    ⟨toy_open_ok 1000 none, toy_create_ok 1000,
      ((openAndProcessParams_outcomes (toyDriver 1000 none none 0) InRep.float
        OutRep.float toyIn toyOut toyAccept toyWorld).2.2 _ _ (toy_open_ok 1000 none)
        (toy_create_ok 1000)).1⟩⟩

/-- C10: for every path `p`, a fresh `OpenParams (p)` has path `p` and rescaling off; a
fresh `CreateParams (p)` has path `p`, the properties of `getCDDAFormat ()`, which are
44100 Hz, 2 channels, 16-bit samples, standard wave format and stereo layout, and the
options float clipping off, minimum header 0 and mode 0. -/
theorem fresh_params_defaults (p : String) :
    (OpenParams.mk1 p).getPath = p ∧
    (OpenParams.mk1 p).mustRescale = false ∧
    (CreateParams.mk1 p).getPath = p ∧
    (CreateParams.mk1 p).getProperties = Audio.getCDDAFormat ∧
    Audio.getCDDAFormat =
      { srate := 44100, chans := 2, samptype := psf_stype.PSF_SAMP_16,
        format := psf_format.PSF_STDWAVE, chformat := psf_channelformat.MC_STEREO } ∧
    (CreateParams.mk1 p).mustSupportsClippingOfFloats = false ∧
    (CreateParams.mk1 p).getMinHeader = 0 ∧
    (CreateParams.mk1 p).getMode = 0 := by
  refine ⟨rfl, rfl, rfl, rfl, rfl, ?_, rfl, rfl⟩
  simp [CreateParams.mustSupportsClippingOfFloats, CreateParams.mk1, CreateParams.mk2, toBool]

/-! ## Descriptors: obtained, closed, open -/

theorem obtained_append (l₁ l₂ : List Event) :
    obtained (l₁ ++ l₂) = obtained l₁ ++ obtained l₂ := by
  induction l₁ with
  | nil => rfl
  | cons e es ih =>
    rw [List.cons_append]
    cases e with
    | sndOpen path rescale sfd => by_cases h : 0 ≤ sfd <;> simp [obtained, h, ih]
    | sndCreate path props clip minHeader mode sfd =>
      by_cases h : 0 ≤ sfd <;> simp [obtained, h, ih]
    | sndClose sfd => simpa [obtained] using ih
    | sndSize sfd frames => simpa [obtained] using ih
    | read sfd n ret => simpa [obtained] using ih
    | process n ret => simpa [obtained] using ih
    | write sfd n ret => simpa [obtained] using ih

theorem closeCount_append (sfd : Int) (l₁ l₂ : List Event) :
    closeCount sfd (l₁ ++ l₂) = closeCount sfd l₁ + closeCount sfd l₂ := by
  induction l₁ with
  | nil => simp [closeCount]
  | cons e es ih =>
    rw [List.cons_append]
    cases e with
    | sndOpen path rescale x => simpa [closeCount] using ih
    | sndCreate path props clip minHeader mode x => simpa [closeCount] using ih
    | sndClose x =>
      simp only [closeCount, ih]
      omega
    | sndSize x frames => simpa [closeCount] using ih
    | read x n ret => simpa [closeCount] using ih
    | process n ret => simpa [closeCount] using ih
    | write x n ret => simpa [closeCount] using ih

theorem LoopTrace.obtained_eq_nil {r w : Int} {f f' : Nat} {l : List Event}
    (h : LoopTrace r w f f' l) : obtained l = [] := by
  induction h with
  | done => rfl
  | shortRead f n ret hf hn hret => rfl
  | rejected f n hf hn => rfl
  | shortWrite f n ret hf hn hret => rfl
  | block f n f₁ f' rest hf hn hf₁ _ ih => simpa [obtained] using ih

theorem LoopTrace.closeCount_eq_zero {r w : Int} {f f' : Nat} {l : List Event}
    (h : LoopTrace r w f f' l) (sfd : Int) : closeCount sfd l = 0 := by
  induction h with
  | done => rfl
  | shortRead f n ret hf hn hret => rfl
  | rejected f n hf hn => rfl
  | shortWrite f n ret hf hn hret => rfl
  | block f n f₁ f' rest hf hn hf₁ _ ih => simpa [closeCount] using ih

theorem openAndProcess_obtained {σ : Type} (d : Driver σ) (inRep : InRep) (outRep : OutRep)
    (rStream : ReadStream) (wStream : WriteStream) (processCall : ProcessCallback σ) (s : σ) :
    obtained (openAndProcess d inRep outRep rStream wStream processCall s).events = [] := by
  rw [openAndProcess_events]
  exact (whileLoop_trace d inRep outRep rStream wStream processCall _ s).obtained_eq_nil

theorem openAndProcess_closeCount {σ : Type} (d : Driver σ) (inRep : InRep) (outRep : OutRep)
    (rStream : ReadStream) (wStream : WriteStream) (processCall : ProcessCallback σ) (s : σ)
    (sfd : Int) :
    closeCount sfd (openAndProcess d inRep outRep rStream wStream processCall s).events = 0 := by
  rw [openAndProcess_events]
  exact (whileLoop_trace d inRep outRep rStream wStream processCall _ s).closeCount_eq_zero sfd

theorem read_openSet {σ : Type} (d : Driver σ) (processCall : ProcessCallback σ)
    (openSet : σ → Finset Int) (laws : DescriptorLaws d processCall openSet)
    (rStream : ReadStream) (inRep : InRep) (s : σ) (n : Nat) :
    openSet (rStream.read d inRep s n).1 = openSet s := by
  cases inRep
  · exact laws.readFloat s _ n
  · exact laws.readDouble s _ n

theorem write_openSet {σ : Type} (d : Driver σ) (processCall : ProcessCallback σ)
    (openSet : σ → Finset Int) (laws : DescriptorLaws d processCall openSet)
    (wStream : WriteStream) (outRep : OutRep) (s : σ) (n : Nat) :
    openSet (wStream.write d outRep s n).1 = openSet s := by
  cases outRep
  · exact laws.writeShort s _ n
  · exact laws.writeFloat s _ n
  · exact laws.writeDouble s _ n

theorem whileLoop_openSet {σ : Type} (d : Driver σ) (inRep : InRep) (outRep : OutRep)
    (rStream : ReadStream) (wStream : WriteStream) (processCall : ProcessCallback σ)
    (openSet : σ → Finset Int) (laws : DescriptorLaws d processCall openSet) :
    ∀ (f : Nat) (s : σ),
      openSet (whileLoop d inRep outRep rStream wStream processCall f s).state = openSet s := by
  intro f
  induction f using Nat.strong_induction_on with
  | _ f ih =>
    intro s
    have hR := read_openSet d processCall openSet laws rStream inRep s (toUint16 (numFrames f))
    have hP := laws.process (rStream.read d inRep s (toUint16 (numFrames f))).1
      (toUint16 (numFrames f))
    have hW := write_openSet d processCall openSet laws wStream outRep
      (processCall (rStream.read d inRep s (toUint16 (numFrames f))).1
        (toUint16 (numFrames f))).1 (toUint16 (numFrames f))
    rcases Nat.eq_zero_or_pos f with rfl | hf
    · rw [whileLoop_zero]
    · by_cases hr : (rStream.read d inRep s (toUint16 (numFrames f))).2 = toUint16 (numFrames f)
      · by_cases hp : (processCall (rStream.read d inRep s (toUint16 (numFrames f))).1
            (toUint16 (numFrames f))).2 = true
        · by_cases hw : (wStream.write d outRep (processCall (rStream.read d inRep s
              (toUint16 (numFrames f))).1 (toUint16 (numFrames f))).1
              (toUint16 (numFrames f))).2 = toUint16 (numFrames f)
          · rw [whileLoop_block d inRep outRep rStream wStream processCall f s hf hr hp hw,
              LoopResult.after_state, ih _ (framesLeft_next_lt f hf), hW, hP, hR]
          · rw [whileLoop_shortWrite d inRep outRep rStream wStream processCall f s hf hr hp hw]
            exact hW.trans (hP.trans hR)
        · rw [whileLoop_rejected d inRep outRep rStream wStream processCall f s hf hr
            (by simpa using hp)]
          exact hP.trans hR
      · rw [whileLoop_shortRead d inRep outRep rStream wStream processCall f s hf hr]
        exact hR

theorem openAndProcess_openSet {σ : Type} (d : Driver σ) (inRep : InRep) (outRep : OutRep)
    (rStream : ReadStream) (wStream : WriteStream) (processCall : ProcessCallback σ)
    (openSet : σ → Finset Int) (laws : DescriptorLaws d processCall openSet) (s : σ) :
    openSet (openAndProcess d inRep outRep rStream wStream processCall s).state =
      openSet s := by
  rw [openAndProcess_state]
  exact whileLoop_openSet d inRep outRep rStream wStream processCall openSet laws _ s

/-- Closing what an open or create call returned restores the set of open descriptors,
whether the call succeeded or failed. -/
theorem erase_acquired (A B : Finset Int) (x : Int) (hvalid : ∀ y ∈ A, 0 ≤ y)
    (hok : 0 ≤ x → x ∉ A ∧ B = insert x A) (hfail : x < 0 → B = A) : B.erase x = A := by
  rcases Int.lt_or_le x 0 with hx | hx
  · rw [hfail hx]
    apply Finset.erase_eq_of_not_mem
    intro hmem
    have := hvalid x hmem
    omega
  · obtain ⟨hnot, hB⟩ := hok hx
    rw [hB]
    exact Finset.erase_insert hnot

theorem counts_open_failed (p : String) (q r0 : Int) (h : r0 = -1) :
    ∀ x ∈ obtained [Event.sndOpen p q r0], closeCount x [Event.sndOpen p q r0] = 1 := by
  intro x hx
  subst h
  simp [obtained] at hx

theorem counts_create_failed (p : String) (q r0 : Int) (p' : String) (props : PSF_PROPS)
    (a b c c0 : Int) (h : c0 = -1) :
    ∀ x ∈ obtained [Event.sndOpen p q r0, Event.sndCreate p' props a b c c0,
        Event.sndClose r0],
      closeCount x [Event.sndOpen p q r0, Event.sndCreate p' props a b c c0,
        Event.sndClose r0] = 1 := by
  intro x hx
  subst h
  by_cases h1 : 0 ≤ r0
  · simp [obtained, h1] at hx
    subst hx
    simp [closeCount]
  · simp [obtained, h1] at hx

theorem counts_both_opened (p : String) (q r0 : Int) (p' : String) (props : PSF_PROPS)
    (a b c c0 : Int) (run : List Event) (hrun : obtained run = [])
    (hcl : ∀ x, closeCount x run = 0) (hne : 0 ≤ r0 ∨ 0 ≤ c0 → r0 ≠ c0) :
    ∀ x ∈ obtained (Event.sndOpen p q r0 :: Event.sndCreate p' props a b c c0 ::
        (run ++ [Event.sndClose c0, Event.sndClose r0])),
      closeCount x (Event.sndOpen p q r0 :: Event.sndCreate p' props a b c c0 ::
        (run ++ [Event.sndClose c0, Event.sndClose r0])) = 1 := by
  intro x hx
  have hO : obtained (run ++ [Event.sndClose c0, Event.sndClose r0]) = [] := by
    rw [obtained_append, hrun]
    rfl
  have hC : closeCount x (run ++ [Event.sndClose c0, Event.sndClose r0]) =
      (if c0 = x then 1 else 0) + (if r0 = x then 1 else 0) := by
    rw [closeCount_append, hcl]
    simp [closeCount]
  simp only [closeCount, hC]
  simp only [obtained, hO] at hx
  by_cases h1 : 0 ≤ r0
  · by_cases h2 : 0 ≤ c0
    · have hne' := hne (Or.inl h1)
      simp only [h1, h2, if_true, List.mem_cons, List.mem_nil_iff, or_false] at hx
      rcases hx with hx | hx
      · subst hx
        simp [Ne.symm hne']
      · subst hx
        simp [hne']
    · have hne' := hne (Or.inl h1)
      simp only [h1, h2, if_true, if_false, List.mem_cons, List.mem_nil_iff, or_false] at hx
      subst hx
      simp [Ne.symm hne']
  · by_cases h2 : 0 ≤ c0
    · have hne' := hne (Or.inr h2)
      simp only [h1, h2, if_true, if_false, List.mem_cons, List.mem_nil_iff, or_false] at hx
      subst hx
      simp [hne']
    · simp only [h1, h2, if_false, List.mem_nil_iff] at hx

theorem params_open_failed_state {σ : Type} (d : Driver σ) (inRep : InRep)
    (outRep : OutRep) (oParams : OpenParams) (cParams : CreateParams)
    (processCall : ProcessCallback σ) (s : σ)
    (ho : («open» d s oParams).stream = none) :
    (openAndProcessParams d inRep outRep oParams cParams processCall s).state =
      («open» d s oParams).state := by
  rw [openAndProcessParams_open_failed d inRep outRep oParams cParams processCall s ho]

theorem params_open_failed_events {σ : Type} (d : Driver σ) (inRep : InRep)
    (outRep : OutRep) (oParams : OpenParams) (cParams : CreateParams)
    (processCall : ProcessCallback σ) (s : σ)
    (ho : («open» d s oParams).stream = none) :
    (openAndProcessParams d inRep outRep oParams cParams processCall s).events =
      [Event.sndOpen oParams.getPath (ofBool oParams.mustRescale)
        (d.psf_sndOpen s oParams.getPath (ofBool oParams.mustRescale)).2.1] := by
  rw [openAndProcessParams_open_failed d inRep outRep oParams cParams processCall s ho,
    open_events]

theorem params_create_failed_state {σ : Type} (d : Driver σ) (inRep : InRep)
    (outRep : OutRep) (oParams : OpenParams) (cParams : CreateParams)
    (processCall : ProcessCallback σ) (s : σ) (rStream : ReadStream)
    (ho : («open» d s oParams).stream = some rStream)
    (hc : (create d («open» d s oParams).state cParams).stream = none) :
    (openAndProcessParams d inRep outRep oParams cParams processCall s).state =
      d.psf_sndClose (create d («open» d s oParams).state cParams).state
        rStream.base.sfd_ := by
  rw [openAndProcessParams_create_failed d inRep outRep oParams cParams processCall s
    rStream ho hc]
  rfl

theorem params_create_failed_events {σ : Type} (d : Driver σ) (inRep : InRep)
    (outRep : OutRep) (oParams : OpenParams) (cParams : CreateParams)
    (processCall : ProcessCallback σ) (s : σ) (rStream : ReadStream)
    (ho : («open» d s oParams).stream = some rStream)
    (hc : (create d («open» d s oParams).state cParams).stream = none) :
    (openAndProcessParams d inRep outRep oParams cParams processCall s).events =
      [Event.sndOpen oParams.getPath (ofBool oParams.mustRescale)
        (d.psf_sndOpen s oParams.getPath (ofBool oParams.mustRescale)).2.1,
        Event.sndCreate cParams.getPath cParams.getProperties
          (ofBool cParams.mustSupportsClippingOfFloats) cParams.getMinHeader cParams.getMode
          (d.psf_sndCreate («open» d s oParams).state cParams.getPath cParams.getProperties
            (ofBool cParams.mustSupportsClippingOfFloats) cParams.getMinHeader
            cParams.getMode).2,
        Event.sndClose rStream.base.sfd_] := by
  rw [openAndProcessParams_create_failed d inRep outRep oParams cParams processCall s
    rStream ho hc, open_events, create_events]
  rfl

theorem params_both_opened_state {σ : Type} (d : Driver σ) (inRep : InRep)
    (outRep : OutRep) (oParams : OpenParams) (cParams : CreateParams)
    (processCall : ProcessCallback σ) (s : σ) (rStream : ReadStream) (wStream : WriteStream)
    (ho : («open» d s oParams).stream = some rStream)
    (hc : (create d («open» d s oParams).state cParams).stream = some wStream) :
    (openAndProcessParams d inRep outRep oParams cParams processCall s).state =
      d.psf_sndClose (d.psf_sndClose
        (openAndProcess d inRep outRep rStream wStream processCall
          (create d («open» d s oParams).state cParams).state).state
        wStream.base.sfd_) rStream.base.sfd_ := by
  rw [openAndProcessParams_both_opened d inRep outRep oParams cParams processCall s
    rStream wStream ho hc]
  rfl

theorem params_both_opened_events {σ : Type} (d : Driver σ) (inRep : InRep)
    (outRep : OutRep) (oParams : OpenParams) (cParams : CreateParams)
    (processCall : ProcessCallback σ) (s : σ) (rStream : ReadStream) (wStream : WriteStream)
    (ho : («open» d s oParams).stream = some rStream)
    (hc : (create d («open» d s oParams).state cParams).stream = some wStream) :
    (openAndProcessParams d inRep outRep oParams cParams processCall s).events =
      Event.sndOpen oParams.getPath (ofBool oParams.mustRescale)
        (d.psf_sndOpen s oParams.getPath (ofBool oParams.mustRescale)).2.1 ::
      Event.sndCreate cParams.getPath cParams.getProperties
        (ofBool cParams.mustSupportsClippingOfFloats) cParams.getMinHeader cParams.getMode
        (d.psf_sndCreate («open» d s oParams).state cParams.getPath cParams.getProperties
          (ofBool cParams.mustSupportsClippingOfFloats) cParams.getMinHeader
          cParams.getMode).2 ::
      ((openAndProcess d inRep outRep rStream wStream processCall
        (create d («open» d s oParams).state cParams).state).events ++
        [Event.sndClose wStream.base.sfd_, Event.sndClose rStream.base.sfd_]) := by
  rw [openAndProcessParams_both_opened d inRep outRep oParams cParams processCall s
    rStream wStream ho hc, open_events, create_events]
  simp only [BaseStream.destroy, List.cons_append, List.nil_append, List.append_assoc]

/-- C9: under the descriptor laws, on every exit path of the parameter-object overload of
`openAndProcess` the set of open descriptors after the call equals the set before it, and
every descriptor the call obtained from the driver is closed exactly once by the call. -/
theorem openAndProcessParams_closes_descriptors {σ : Type} (d : Driver σ) (inRep : InRep)
    (outRep : OutRep) (oParams : OpenParams) (cParams : CreateParams)
    (processCall : ProcessCallback σ) (openSet : σ → Finset Int)
    (laws : DescriptorLaws d processCall openSet) (s : σ) :
    openSet (openAndProcessParams d inRep outRep oParams cParams processCall s).state =
      openSet s ∧
    ∀ sfd ∈ obtained (openAndProcessParams d inRep outRep oParams cParams processCall s).events,
      closeCount sfd
        (openAndProcessParams d inRep outRep oParams cParams processCall s).events = 1 := by
  have hE1 : (openSet («open» d s oParams).state).erase
      (d.psf_sndOpen s oParams.getPath (ofBool oParams.mustRescale)).2.1 = openSet s := by
    rw [open_state]
    exact erase_acquired _ _ _ (laws.valid s) (laws.open_ok s _ _) (laws.open_failed s _ _)
  have hE2 : (openSet (create d («open» d s oParams).state cParams).state).erase
      (d.psf_sndCreate («open» d s oParams).state cParams.getPath cParams.getProperties
        (ofBool cParams.mustSupportsClippingOfFloats) cParams.getMinHeader
        cParams.getMode).2 = openSet («open» d s oParams).state := by
    rw [create_state]
    exact erase_acquired _ _ _ (laws.valid _) (laws.create_ok _ _ _ _ _ _)
      (laws.create_failed _ _ _ _ _ _)
  by_cases h1 : (d.psf_sndOpen s oParams.getPath (ofBool oParams.mustRescale)).2.1 = -1
  · have ho : («open» d s oParams).stream = none := by
      rw [open_stream, if_pos h1]
    rw [params_open_failed_state d inRep outRep oParams cParams processCall s ho,
      params_open_failed_events d inRep outRep oParams cParams processCall s ho, open_state]
    exact ⟨laws.open_failed s _ _ (by omega), counts_open_failed _ _ _ h1⟩
  · have ho := open_stream d s oParams
    rw [if_neg h1] at ho
    by_cases h2 : (d.psf_sndCreate («open» d s oParams).state cParams.getPath
        cParams.getProperties (ofBool cParams.mustSupportsClippingOfFloats)
        cParams.getMinHeader cParams.getMode).2 = -1
    · have hc : (create d («open» d s oParams).state cParams).stream = none := by
        rw [create_stream, if_pos h2]
      rw [params_create_failed_state d inRep outRep oParams cParams processCall s _ ho hc,
        params_create_failed_events d inRep outRep oParams cParams processCall s _ ho hc,
        laws.close]
      refine ⟨?_, counts_create_failed _ _ _ _ _ _ _ _ _ h2⟩
      rw [create_state, laws.create_failed _ _ _ _ _ _ (by omega)]
      exact hE1
    · have hc := create_stream d («open» d s oParams).state cParams
      rw [if_neg h2] at hc
      rw [params_both_opened_state d inRep outRep oParams cParams processCall s _ _ ho hc,
        params_both_opened_events d inRep outRep oParams cParams processCall s _ _ ho hc,
        laws.close, laws.close,
        openAndProcess_openSet d inRep outRep _ _ processCall openSet laws]
      refine ⟨?_, counts_both_opened _ _ _ _ _ _ _ _ _ _
        (openAndProcess_obtained d inRep outRep _ _ processCall _)
        (openAndProcess_closeCount d inRep outRep _ _ processCall _) ?_⟩
      · show ((openSet (create d («open» d s oParams).state cParams).state).erase
          (d.psf_sndCreate («open» d s oParams).state cParams.getPath cParams.getProperties
            (ofBool cParams.mustSupportsClippingOfFloats) cParams.getMinHeader
            cParams.getMode).2).erase
          (d.psf_sndOpen s oParams.getPath (ofBool oParams.mustRescale)).2.1 = openSet s
        rw [hE2, hE1]
      · intro hor heq
        rcases hor with hr | hr
        · have hmem : (d.psf_sndOpen s oParams.getPath (ofBool oParams.mustRescale)).2.1 ∈
              openSet («open» d s oParams).state := by
            rw [open_state, (laws.open_ok s _ _ hr).2]
            exact Finset.mem_insert_self _ _
          have hc0 : 0 ≤ (d.psf_sndCreate («open» d s oParams).state cParams.getPath
              cParams.getProperties (ofBool cParams.mustSupportsClippingOfFloats)
              cParams.getMinHeader cParams.getMode).2 := by
            rw [← heq]
            exact hr
          exact (laws.create_ok _ _ _ _ _ _ hc0).1 (heq ▸ hmem)
        · have hr0 : 0 ≤ (d.psf_sndOpen s oParams.getPath (ofBool oParams.mustRescale)).2.1 := by
            rw [heq]
            exact hr
          have hmem : (d.psf_sndOpen s oParams.getPath (ofBool oParams.mustRescale)).2.1 ∈
              openSet («open» d s oParams).state := by
            rw [open_state, (laws.open_ok s _ _ hr0).2]
            exact Finset.mem_insert_self _ _
          exact (laws.create_ok _ _ _ _ _ _ hr).1 (heq ▸ hmem)

theorem toy_laws (size sk : Int) :
    DescriptorLaws (toyDriver size none none sk) toyAccept toyOpenSet where
  valid := by
    intro s sfd h
    simp only [toyOpenSet, Finset.mem_filter] at h
    exact h.2.1
  open_ok := by
    intro s path rescale _
    constructor
    · simp [toyDriver, toyOpenSet]
    · ext x
      simp only [toyDriver, toyOpenSet, Finset.mem_filter, List.mem_toFinset, List.mem_cons,
        Finset.mem_insert, Nat.cast_add, Nat.cast_one]
      constructor
      · rintro ⟨h1 | h1, h2, h3⟩
        · exact Or.inl h1
        · by_cases hx : x = (s.next : Int)
          · exact Or.inl hx
          · exact Or.inr ⟨h1, h2, by omega⟩
      · rintro (h | ⟨h1, h2, h3⟩)
        · exact ⟨Or.inl h, by omega, by omega⟩
        · exact ⟨Or.inr h1, h2, by omega⟩
  open_failed := by
    intro s path rescale h
    simp only [toyDriver] at h
    omega
  create_ok := by
    intro s path props clip minHeader mode _
    constructor
    · simp [toyDriver, toyOpenSet]
    · ext x
      simp only [toyDriver, toyOpenSet, Finset.mem_filter, List.mem_toFinset, List.mem_cons,
        Finset.mem_insert, Nat.cast_add, Nat.cast_one]
      constructor
      · rintro ⟨h1 | h1, h2, h3⟩
        · exact Or.inl h1
        · by_cases hx : x = (s.next : Int)
          · exact Or.inl hx
          · exact Or.inr ⟨h1, h2, by omega⟩
      · rintro (h | ⟨h1, h2, h3⟩)
        · exact ⟨Or.inl h, by omega, by omega⟩
        · exact ⟨Or.inr h1, h2, by omega⟩
  create_failed := by
    intro s path props clip minHeader mode h
    simp only [toyDriver] at h
    omega
  close := by
    intro s sfd
    ext x
    simp only [toyDriver, toyOpenSet, Finset.mem_filter, List.mem_toFinset, List.mem_filter,
      Finset.mem_erase, decide_eq_true_eq]
    tauto
  readFloat := fun _ _ _ => rfl
  readDouble := fun _ _ _ => rfl
  writeShort := fun _ _ _ => rfl
  writeFloat := fun _ _ _ => rfl
  writeDouble := fun _ _ _ => rfl
  process := fun _ _ => rfl

theorem obtained_both_opened (p : String) (q r0 : Int) (p' : String) (props : PSF_PROPS)
    (a b c c0 : Int) (run : List Event) (hrun : obtained run = [])
    (h1 : 0 ≤ r0) (h2 : 0 ≤ c0) :
    obtained (Event.sndOpen p q r0 :: Event.sndCreate p' props a b c c0 ::
      (run ++ [Event.sndClose c0, Event.sndClose r0])) = [r0, c0] := by
  have hO : obtained (run ++ [Event.sndClose c0, Event.sndClose r0]) = [] := by
    rw [obtained_append, hrun]
    rfl
  simp only [obtained, hO, h1, h2, if_true]

theorem toy_obtained :
    obtained (openAndProcessParams (toyDriver 1000 none none 0) InRep.float OutRep.float
      toyIn toyOut toyAccept toyWorld).events = [2, 3] := by
  have hr0 : ((toyDriver 1000 none none 0).psf_sndOpen toyWorld toyIn.getPath
      (ofBool toyIn.mustRescale)).2.1 = 2 := rfl
  have hc0 : ((toyDriver 1000 none none 0).psf_sndCreate
      («open» (toyDriver 1000 none none 0) toyWorld toyIn).state toyOut.getPath
      toyOut.getProperties (ofBool toyOut.mustSupportsClippingOfFloats) toyOut.getMinHeader
      toyOut.getMode).2 = 3 := by
    rw [open_state]
    rfl
  rw [params_both_opened_events (toyDriver 1000 none none 0) InRep.float OutRep.float
    toyIn toyOut toyAccept toyWorld _ _ (toy_open_ok 1000 none) (toy_create_ok 1000),
    hr0, hc0]
  exact obtained_both_opened _ _ 2 _ _ _ _ _ 3 _
    (openAndProcess_obtained (toyDriver 1000 none none 0) InRep.float OutRep.float _ _
      toyAccept _) (by omega) (by omega)

theorem openAndProcessParams_closes_descriptors_witness :
    DescriptorLaws (toyDriver 1000 none none 0) toyAccept toyOpenSet ∧
    (toyOpenSet (openAndProcessParams (toyDriver 1000 none none 0) InRep.float OutRep.float
        toyIn toyOut toyAccept toyWorld).state = toyOpenSet toyWorld ∧
      ∀ sfd ∈ obtained (openAndProcessParams (toyDriver 1000 none none 0) InRep.float
          OutRep.float toyIn toyOut toyAccept toyWorld).events,
        closeCount sfd (openAndProcessParams (toyDriver 1000 none none 0) InRep.float
          OutRep.float toyIn toyOut toyAccept toyWorld).events = 1) ∧
    obtained (openAndProcessParams (toyDriver 1000 none none 0) InRep.float OutRep.float
      toyIn toyOut toyAccept toyWorld).events = [2, 3] :=
  ⟨toy_laws 1000 0,
    openAndProcessParams_closes_descriptors (toyDriver 1000 none none 0) InRep.float
      OutRep.float toyIn toyOut toyAccept toyOpenSet (toy_laws 1000 0) toyWorld,
    toy_obtained⟩

/-! ## Setters of the parameter objects -/

/-- C11: every setter of `OpenParams` and `CreateParams` is total, makes the matching
getter return the value just set, whatever that value is, and leaves the path, the
properties and every other option as they were. -/
theorem setters_set_only_their_option (o : OpenParams) (c : CreateParams) (b : Bool)
    (v : Int) :
    ((o.setMustRescale b).mustRescale = b ∧ (o.setMustRescale b).getPath = o.getPath) ∧
    ((c.setMustSupportsClippingOfFloats b).mustSupportsClippingOfFloats = b ∧
      (c.setMustSupportsClippingOfFloats b).getPath = c.getPath ∧
      (c.setMustSupportsClippingOfFloats b).getProperties = c.getProperties ∧
      (c.setMustSupportsClippingOfFloats b).getMinHeader = c.getMinHeader ∧
      (c.setMustSupportsClippingOfFloats b).getMode = c.getMode) ∧
    ((c.setMinimumHeader v).getMinHeader = v ∧
      (c.setMinimumHeader v).getPath = c.getPath ∧
      (c.setMinimumHeader v).getProperties = c.getProperties ∧
      (c.setMinimumHeader v).mustSupportsClippingOfFloats = c.mustSupportsClippingOfFloats ∧
      (c.setMinimumHeader v).getMode = c.getMode) ∧
    ((c.setMode v).getMode = v ∧
      (c.setMode v).getPath = c.getPath ∧
      (c.setMode v).getProperties = c.getProperties ∧
      (c.setMode v).mustSupportsClippingOfFloats = c.mustSupportsClippingOfFloats ∧
      (c.setMode v).getMinHeader = c.getMinHeader) := by
  refine ⟨⟨rfl, rfl⟩, ⟨?_, rfl, rfl, rfl, rfl⟩, ⟨rfl, rfl, rfl, rfl, rfl⟩,
    ⟨rfl, rfl, rfl, rfl, rfl⟩⟩
  cases b <;>
    simp [CreateParams.setMustSupportsClippingOfFloats,
      CreateParams.mustSupportsClippingOfFloats, toBool, ofBool]

/-! ## Failed runs -/

theorem mem_blockSchedule (N m : Nat) (h : m ∈ blockSchedule N) : m = 512 ∨ m = N % 512 := by
  unfold blockSchedule at h
  rw [List.mem_append] at h
  rcases h with h | h
  · exact Or.inl (List.eq_of_mem_replicate h)
  · by_cases h0 : N % 512 = 0
    · simp [h0] at h
    · simp [h0] at h
      exact Or.inr h

theorem successfulWrites_append (l₁ l₂ : List Event) :
    successfulWrites (l₁ ++ l₂) = successfulWrites l₁ ++ successfulWrites l₂ := by
  induction l₁ with
  | nil => rfl
  | cons e es ih =>
    rw [List.cons_append]
    cases e with
    | sndOpen path rescale sfd => simpa [successfulWrites] using ih
    | sndCreate path props clip minHeader mode sfd => simpa [successfulWrites] using ih
    | sndClose sfd => simpa [successfulWrites] using ih
    | sndSize sfd frames => simpa [successfulWrites] using ih
    | read sfd n ret => simpa [successfulWrites] using ih
    | process n ret => simpa [successfulWrites] using ih
    | write sfd n ret => by_cases h : ret = n <;> simp [successfulWrites, h, ih]

theorem successfulWrites_fullRun (r w : Int) (l : List Nat) :
    successfulWrites (fullRun r w l) = l := by
  induction l with
  | nil => rfl
  | cons n ns ih => simp [fullRun, successfulWrites, ih]

theorem FailedStep.successfulWrites_eq_nil {r w : Int} {n : Nat} {tail : List Event}
    (h : FailedStep r w n tail) : successfulWrites tail = [] := by
  cases h with
  | shortRead ret hret => rfl
  | rejected => rfl
  | shortWrite ret hret => simp [successfulWrites, hret]

theorem LoopTrace.failed_shape {r w : Int} {f f' : Nat} {l : List Event}
    (h : LoopTrace r w f f' l) (hf : f < 2147483648) (h0 : f' ≠ 0) :
    ∃ (k n : Nat) (tail : List Event), (blockSchedule f)[k]? = some n ∧
      l = fullRun r w ((blockSchedule f).take k) ++ tail ∧ FailedStep r w n tail ∧
      0 < n ∧ ((blockSchedule f).take k).sum + n ≤ f := by
  induction h with
  | done => exact absurd rfl h0
  | shortRead f n ret hpos hn hret =>
    have hn' : n = min f 512 := by
      rw [hn]
      exact toUint16_numFrames_small f hf
    refine ⟨0, n, [Event.read r n ret], ?_, ?_, FailedStep.shortRead ret hret, by omega, ?_⟩
    · rw [blockSchedule_pos f hpos, hn', List.getElem?_cons_zero]
    · rfl
    · rw [List.take_zero, List.sum_nil]
      omega
  | rejected f n hpos hn =>
    have hn' : n = min f 512 := by
      rw [hn]
      exact toUint16_numFrames_small f hf
    refine ⟨0, n, [Event.read r n n, Event.process n false], ?_, ?_, FailedStep.rejected,
      by omega, ?_⟩
    · rw [blockSchedule_pos f hpos, hn', List.getElem?_cons_zero]
    · rfl
    · rw [List.take_zero, List.sum_nil]
      omega
  | shortWrite f n ret hpos hn hret =>
    have hn' : n = min f 512 := by
      rw [hn]
      exact toUint16_numFrames_small f hf
    refine ⟨0, n, [Event.read r n n, Event.process n true, Event.write w n ret], ?_, ?_,
      FailedStep.shortWrite ret hret, by omega, ?_⟩
    · rw [blockSchedule_pos f hpos, hn', List.getElem?_cons_zero]
    · rfl
    · rw [List.take_zero, List.sum_nil]
      omega
  | block f n f₁ f' rest hpos hn hf₁ _ ih =>
    have hn' : n = min f 512 := by
      rw [hn]
      exact toUint16_numFrames_small f hf
    have hf₁' : f₁ = f - min f 512 := by
      rw [hf₁]
      exact framesLeft_next_small f hf
    obtain ⟨k, m, tail, hk, hl, hstep, hm, hsum⟩ := ih (by omega) h0
    refine ⟨k + 1, m, tail, ?_, ?_, hstep, hm, ?_⟩
    · rw [blockSchedule_pos f hpos, List.getElem?_cons_succ, ← hf₁']
      exact hk
    · rw [blockSchedule_pos f hpos, List.take_succ_cons, ← hf₁', ← hn', hl]
      rfl
    · rw [blockSchedule_pos f hpos, List.take_succ_cons, List.sum_cons, ← hf₁']
      omega

theorem framesWritten_append (l₁ l₂ : List Event) :
    framesWritten (l₁ ++ l₂) = framesWritten l₁ + framesWritten l₂ := by
  induction l₁ with
  | nil => simp [framesWritten]
  | cons e es ih =>
    rw [List.cons_append]
    cases e with
    | sndOpen path rescale sfd => simpa [framesWritten] using ih
    | sndCreate path props clip minHeader mode sfd => simpa [framesWritten] using ih
    | sndClose sfd => simpa [framesWritten] using ih
    | sndSize sfd frames => simpa [framesWritten] using ih
    | read sfd n ret => simpa [framesWritten] using ih
    | process n ret => simpa [framesWritten] using ih
    | write sfd n ret =>
      simp only [framesWritten, ih]
      omega

theorem framesWritten_fullRun (r w : Int) (l : List Nat) :
    framesWritten (fullRun r w l) = l.sum := by
  induction l with
  | nil => rfl
  | cons n ns ih => simp [fullRun, framesWritten, ih]

theorem FailedStep.framesWritten_lt {r w : Int} {n : Nat} {tail : List Event}
    (h : FailedStep r w n tail) (hn : 0 < n)
    (hshort : ∀ ret, Event.write w n ret ∈ tail → ret < n) : framesWritten tail < n := by
  cases h with
  | shortRead ret hret => exact hn
  | rejected => exact hn
  | shortWrite ret hret =>
    have := hshort ret (by simp)
    simpa [framesWritten] using this

theorem failed_run_prefix (r w : Int) (N f' : Nat) (l : List Event)
    (h : LoopTrace r w N f' l) (hN : N < 2147483648) (h0 : decide (f' = 0) = false) :
    ∃ (k n : Nat) (tail : List Event), (blockSchedule N)[k]? = some n ∧
      Event.sndSize r N :: l =
        Event.sndSize r N :: (fullRun r w ((blockSchedule N).take k) ++ tail) ∧
      FailedStep r w n tail ∧
      successfulWrites (Event.sndSize r N :: l) = (blockSchedule N).take k ∧
      successfulWrites (Event.sndSize r N :: l) <+: blockSchedule N ∧
      (∀ m ∈ successfulWrites (Event.sndSize r N :: l), m = 512 ∨ m = N % 512) ∧
      (successfulWrites (Event.sndSize r N :: l)).sum < N ∧
      ((∀ ret, Event.write w n ret ∈ tail → ret < n) →
        framesWritten (Event.sndSize r N :: l) < N) := by
  have hf' : f' ≠ 0 := by simpa using h0
  obtain ⟨k, n, tail, hk, hl, hstep, hn, hsum⟩ := h.failed_shape hN hf'
  have hsw : successfulWrites (Event.sndSize r N :: l) = (blockSchedule N).take k := by
    rw [hl]
    show successfulWrites (fullRun r w ((blockSchedule N).take k) ++ tail) = _
    rw [successfulWrites_append, successfulWrites_fullRun, hstep.successfulWrites_eq_nil,
      List.append_nil]
  refine ⟨k, n, tail, hk, by rw [hl], hstep, hsw, ?_, ?_, ?_, ?_⟩
  · rw [hsw]
    exact List.take_prefix k _
  · intro m hm
    rw [hsw] at hm
    exact mem_blockSchedule N m (List.mem_of_mem_take hm)
  · rw [hsw]
    omega
  · intro hshort
    have hlt := hstep.framesWritten_lt hn hshort
    rw [hl]
    show framesWritten (fullRun r w ((blockSchedule N).take k) ++ tail) < N
    rw [framesWritten_append, framesWritten_fullRun]
    omega

theorem toyAcceptFull_fst (s : ToyWorld) (n : Nat) : (toyAcceptFull s n).1 = s := rfl

theorem toy_read_fst (size : Int) (oe ce : Option Int) (sk : Int) (r : ReadStream)
    (rep : InRep) (s : ToyWorld) (n : Nat) (h : n < 4294967296) :
    (r.read (toyDriver size oe ce sk) rep s n).1 = s := by
  rw [toy_read size oe ce sk r rep s n h]

theorem toy_write_fst (size : Int) (oe ce : Option Int) (sk : Int) (w : WriteStream)
    (rep : OutRep) (s : ToyWorld) (n : Nat) (h : n < 4294967296) :
    (w.write (toyDriver size oe ce sk) rep s n).1 = s := by
  rw [toy_write size oe ce sk w rep s n h]

theorem toy_partial_loop :
    (whileLoop (toyDriver 1000 none none 0) InRep.float OutRep.float toyReadStream
      toyWriteStream toyAcceptFull 1000 toyWorld).framesLeft = 488 ∧
    (whileLoop (toyDriver 1000 none none 0) InRep.float OutRep.float toyReadStream
      toyWriteStream toyAcceptFull 1000 toyWorld).events =
      [Event.read 0 512 512, Event.process 512 true, Event.write 1 512 512,
        Event.read 0 488 488, Event.process 488 false] := by
  have hn : toUint16 (numFrames 1000) = 512 := by
    rw [toUint16_numFrames_small 1000 (by omega)]
    rfl
  have hnext : toUint16 (((1000 : Nat) : Int) - numFrames 1000) = 488 := by
    rw [framesLeft_next_small 1000 (by omega)]
    rfl
  have hn2 : toUint16 (numFrames 488) = 488 := by
    rw [toUint16_numFrames_small 488 (by omega)]
    rfl
  have hb := whileLoop_block (toyDriver 1000 none none 0) InRep.float OutRep.float
    toyReadStream toyWriteStream toyAcceptFull 1000 toyWorld (by omega)
    (by rw [hn, toy_read _ _ _ _ _ _ _ _ (by omega)])
    (by rw [hn]; rfl)
    (by rw [hn, toy_write _ _ _ _ _ _ _ _ (by omega)])
  rw [hn, hnext, toy_write_fst _ _ _ _ _ _ _ 512 (by omega), toyAcceptFull_fst,
    toy_read_fst _ _ _ _ _ _ _ 512 (by omega)] at hb
  have hr := whileLoop_rejected (toyDriver 1000 none none 0) InRep.float OutRep.float
    toyReadStream toyWriteStream toyAcceptFull 488 toyWorld (by omega)
    (by rw [hn2, toy_read _ _ _ _ _ _ _ _ (by omega)])
    (by rw [hn2]; rfl)
  rw [hn2] at hr
  rw [hb, LoopResult.after_framesLeft, LoopResult.after_events, hr]
  exact ⟨rfl, rfl⟩

/-- C12: a run of `openAndProcess` that returns `false` on a source of `N < 2^31` frames
made the calls of the first `k` blocks of the schedule, all of them successful, followed
by the calls of the one failing iteration on block `k`, whose last call is the short read,
the rejection or the short write, and nothing after it. The successful writes are hence,
in order, the first `k` entries of the schedule, a prefix of it; each is 512 frames or
`N % 512` frames; their total is strictly less than `N`, whichever step failed; and the
frames the destination accepted are fewer than `N` too unless the failing write returned
more than it was asked for. -/
theorem openAndProcess_failed_run_prefix {σ : Type} (d : Driver σ) (inRep : InRep)
    (outRep : OutRep) (rStream : ReadStream) (wStream : WriteStream)
    (processCall : ProcessCallback σ) (s : σ)
    (hN : rStream.base.getNumFrames d s < 2147483648)
    (hfalse : (openAndProcess d inRep outRep rStream wStream processCall s).result = false) :
    ∃ (k n : Nat) (tail : List Event),
      (blockSchedule (rStream.base.getNumFrames d s))[k]? = some n ∧
      (openAndProcess d inRep outRep rStream wStream processCall s).events =
        Event.sndSize rStream.base.sfd_ (rStream.base.getNumFrames d s) ::
          (fullRun rStream.base.sfd_ wStream.base.sfd_
            ((blockSchedule (rStream.base.getNumFrames d s)).take k) ++ tail) ∧
      FailedStep rStream.base.sfd_ wStream.base.sfd_ n tail ∧
      successfulWrites (openAndProcess d inRep outRep rStream wStream processCall s).events =
        (blockSchedule (rStream.base.getNumFrames d s)).take k ∧
      successfulWrites (openAndProcess d inRep outRep rStream wStream processCall s).events <+:
        blockSchedule (rStream.base.getNumFrames d s) ∧
      (∀ m ∈ successfulWrites
          (openAndProcess d inRep outRep rStream wStream processCall s).events,
        m = 512 ∨ m = rStream.base.getNumFrames d s % 512) ∧
      (successfulWrites
        (openAndProcess d inRep outRep rStream wStream processCall s).events).sum <
        rStream.base.getNumFrames d s ∧
      ((∀ ret, Event.write wStream.base.sfd_ n ret ∈ tail → ret < n) →
        framesWritten (openAndProcess d inRep outRep rStream wStream processCall s).events <
          rStream.base.getNumFrames d s) := by
  rw [openAndProcess_result] at hfalse
  rw [openAndProcess_events]
  exact failed_run_prefix rStream.base.sfd_ wStream.base.sfd_
    (rStream.base.getNumFrames d s)
    (whileLoop d inRep outRep rStream wStream processCall
      (rStream.base.getNumFrames d s) s).framesLeft
    (whileLoop d inRep outRep rStream wStream processCall
      (rStream.base.getNumFrames d s) s).events
    (whileLoop_trace d inRep outRep rStream wStream processCall _ s) hN hfalse

theorem openAndProcess_failed_run_prefix_witness :
    (toyReadStream.base.getNumFrames (toyDriver 1000 none none 0) toyWorld < 2147483648 ∧
      (openAndProcess (toyDriver 1000 none none 0) InRep.float OutRep.float toyReadStream
        toyWriteStream toyAcceptFull toyWorld).result = false) ∧
    (∃ (k n : Nat) (tail : List Event),
      (blockSchedule
        (toyReadStream.base.getNumFrames (toyDriver 1000 none none 0) toyWorld))[k]? =
        some n ∧
      (openAndProcess (toyDriver 1000 none none 0) InRep.float OutRep.float toyReadStream
        toyWriteStream toyAcceptFull toyWorld).events =
        Event.sndSize toyReadStream.base.sfd_
          (toyReadStream.base.getNumFrames (toyDriver 1000 none none 0) toyWorld) ::
          (fullRun toyReadStream.base.sfd_ toyWriteStream.base.sfd_
            ((blockSchedule
              (toyReadStream.base.getNumFrames (toyDriver 1000 none none 0) toyWorld)).take
              k) ++ tail) ∧
      FailedStep toyReadStream.base.sfd_ toyWriteStream.base.sfd_ n tail ∧
      successfulWrites (openAndProcess (toyDriver 1000 none none 0) InRep.float OutRep.float
        toyReadStream toyWriteStream toyAcceptFull toyWorld).events =
        (blockSchedule
          (toyReadStream.base.getNumFrames (toyDriver 1000 none none 0) toyWorld)).take k ∧
      successfulWrites (openAndProcess (toyDriver 1000 none none 0) InRep.float OutRep.float
        toyReadStream toyWriteStream toyAcceptFull toyWorld).events <+:
        blockSchedule
          (toyReadStream.base.getNumFrames (toyDriver 1000 none none 0) toyWorld) ∧
      (∀ m ∈ successfulWrites (openAndProcess (toyDriver 1000 none none 0) InRep.float
          OutRep.float toyReadStream toyWriteStream toyAcceptFull toyWorld).events,
        m = 512 ∨
          m = toyReadStream.base.getNumFrames (toyDriver 1000 none none 0) toyWorld % 512) ∧
      (successfulWrites (openAndProcess (toyDriver 1000 none none 0) InRep.float OutRep.float
        toyReadStream toyWriteStream toyAcceptFull toyWorld).events).sum <
        toyReadStream.base.getNumFrames (toyDriver 1000 none none 0) toyWorld ∧
      ((∀ ret, Event.write toyWriteStream.base.sfd_ n ret ∈ tail → ret < n) →
        framesWritten (openAndProcess (toyDriver 1000 none none 0) InRep.float OutRep.float
          toyReadStream toyWriteStream toyAcceptFull toyWorld).events <
          toyReadStream.base.getNumFrames (toyDriver 1000 none none 0) toyWorld)) ∧
    (openAndProcess (toyDriver 1000 none none 0) InRep.float OutRep.float toyReadStream
      toyWriteStream toyAcceptFull toyWorld).events =
      [Event.sndSize 0 1000, Event.read 0 512 512, Event.process 512 true,
        Event.write 1 512 512, Event.read 0 488 488, Event.process 488 false] := by
  have h1000 : toUint16 1000 = 1000 := toUint16_of_lt 1000 (by omega)
  have hN : toyReadStream.base.getNumFrames (toyDriver 1000 none none 0) toyWorld
      < 2147483648 := by
    rw [toy_getNumFrames, h1000]
    omega
  have hfalse : (openAndProcess (toyDriver 1000 none none 0) InRep.float OutRep.float
      toyReadStream toyWriteStream toyAcceptFull toyWorld).result = false := by
    rw [openAndProcess_result, toy_getNumFrames, h1000, toy_partial_loop.1]
    rfl
  refine ⟨⟨hN, hfalse⟩,
    openAndProcess_failed_run_prefix (toyDriver 1000 none none 0) InRep.float OutRep.float
      toyReadStream toyWriteStream toyAcceptFull toyWorld hN hfalse, ?_⟩
  rw [openAndProcess_events, toy_getNumFrames, h1000, toy_partial_loop.2]
  rfl

/-! ## Format properties of a stream -/

theorem performOnReadStream_fst {σ : Type} (d : Driver σ) (r : ReadStream) (s : σ)
    (op : StreamOp InRep) : (performOnReadStream d r s op).1 = r := by
  cases op <;> rfl

theorem performAllOnReadStream_fst {σ : Type} (d : Driver σ) (r : ReadStream)
    (ops : List (StreamOp InRep)) : ∀ (s : σ), (performAllOnReadStream d r s ops).1 = r := by
  induction ops with
  | nil =>
    intro s
    rfl
  | cons op ops ih =>
    intro s
    rw [performAllOnReadStream, performOnReadStream_fst]
    exact ih _

theorem performOnWriteStream_fst {σ : Type} (d : Driver σ) (w : WriteStream) (s : σ)
    (op : StreamOp OutRep) : (performOnWriteStream d w s op).1 = w := by
  cases op <;> rfl

theorem performAllOnWriteStream_fst {σ : Type} (d : Driver σ) (w : WriteStream)
    (ops : List (StreamOp OutRep)) : ∀ (s : σ), (performAllOnWriteStream d w s ops).1 = w := by
  induction ops with
  | nil =>
    intro s
    rfl
  | cons op ops ih =>
    intro s
    rw [performAllOnWriteStream, performOnWriteStream_fst]
    exact ih _

theorem open_stream_props {σ : Type} (d : Driver σ) (s : σ) (params : OpenParams)
    (rStream : ReadStream) (ho : («open» d s params).stream = some rStream) :
    rStream.base.props_ =
      (d.psf_sndOpen s params.getPath (ofBool params.mustRescale)).2.2 := by
  rw [open_stream] at ho
  by_cases h : (d.psf_sndOpen s params.getPath (ofBool params.mustRescale)).2.1 = -1
  · rw [if_pos h] at ho
    cases ho
  · rw [if_neg h] at ho
    injection ho with ho
    rw [← ho]

theorem create_stream_props {σ : Type} (d : Driver σ) (s : σ) (params : CreateParams)
    (wStream : WriteStream) (hc : (create d s params).stream = some wStream) :
    wStream.base.props_ = params.getProperties := by
  rw [create_stream] at hc
  by_cases h : (d.psf_sndCreate s params.getPath params.getProperties
      (ofBool params.mustSupportsClippingOfFloats) params.getMinHeader params.getMode).2 = -1
  · rw [if_pos h] at hc
    cases hc
  · rw [if_neg h] at hc
    injection hc with hc
    rw [← hc]

/-- C13: the format properties of a stream are those it was constructed with, whatever
is done with it afterwards: no sequence of operations changes them. After every sequence of `read`, `getPosition`, `setPosition`
and `getNumFrames` calls on a stream returned by `open`, the five format getters return
the fields of the properties the driver negotiated at the open; after every sequence of
`write`, `getPosition`, `setPosition` and `getNumFrames` calls on a stream returned by
`create`, they return the fields of the properties requested in the `CreateParams`. -/
theorem stream_format_fixed_at_construction {σ : Type} (d : Driver σ) (s₀ s₁ s₂ s₃ : σ)
    (oParams : OpenParams) (cParams : CreateParams) (rStream : ReadStream)
    (wStream : WriteStream) (rops : List (StreamOp InRep)) (wops : List (StreamOp OutRep))
    (ho : («open» d s₀ oParams).stream = some rStream)
    (hc : (create d s₂ cParams).stream = some wStream) :
    ((performAllOnReadStream d rStream s₁ rops).1.base.props_ = rStream.base.props_ ∧
      (performAllOnWriteStream d wStream s₃ wops).1.base.props_ = wStream.base.props_) ∧
    ((performAllOnReadStream d rStream s₁ rops).1.base.getFormat =
        (d.psf_sndOpen s₀ oParams.getPath (ofBool oParams.mustRescale)).2.2.format ∧
      (performAllOnReadStream d rStream s₁ rops).1.base.getSampleType =
        (d.psf_sndOpen s₀ oParams.getPath (ofBool oParams.mustRescale)).2.2.samptype ∧
      (performAllOnReadStream d rStream s₁ rops).1.base.getChannelFormat =
        (d.psf_sndOpen s₀ oParams.getPath (ofBool oParams.mustRescale)).2.2.chformat ∧
      (performAllOnReadStream d rStream s₁ rops).1.base.getSampleRate =
        (d.psf_sndOpen s₀ oParams.getPath (ofBool oParams.mustRescale)).2.2.srate ∧
      (performAllOnReadStream d rStream s₁ rops).1.base.getNumChannels =
        toUint16 (d.psf_sndOpen s₀ oParams.getPath (ofBool oParams.mustRescale)).2.2.chans) ∧
    ((performAllOnWriteStream d wStream s₃ wops).1.base.getFormat =
        cParams.getProperties.format ∧
      (performAllOnWriteStream d wStream s₃ wops).1.base.getSampleType =
        cParams.getProperties.samptype ∧
      (performAllOnWriteStream d wStream s₃ wops).1.base.getChannelFormat =
        cParams.getProperties.chformat ∧
      (performAllOnWriteStream d wStream s₃ wops).1.base.getSampleRate =
        cParams.getProperties.srate ∧
      (performAllOnWriteStream d wStream s₃ wops).1.base.getNumChannels =
        toUint16 cParams.getProperties.chans) := by
  rw [performAllOnReadStream_fst, performAllOnWriteStream_fst]
  unfold BaseStream.getFormat BaseStream.getSampleType BaseStream.getChannelFormat
    BaseStream.getSampleRate BaseStream.getNumChannels
  rw [open_stream_props d s₀ oParams rStream ho, create_stream_props d s₂ cParams wStream hc]
  exact ⟨⟨rfl, rfl⟩, ⟨rfl, rfl, rfl, rfl, rfl⟩, ⟨rfl, rfl, rfl, rfl, rfl⟩⟩

theorem stream_format_fixed_at_construction_witness :
    ((«open» (toyDriver 1000 none none 0) toyWorld toyIn).stream =
        some ⟨⟨2, Audio.getCDDAFormat⟩⟩ ∧
      (create (toyDriver 1000 none none 0)
        («open» (toyDriver 1000 none none 0) toyWorld toyIn).state toyOut).stream =
        some ⟨⟨3, Audio.getCDDAFormat⟩⟩) ∧
    (performAllOnReadStream (toyDriver 1000 none none 0) ⟨⟨2, Audio.getCDDAFormat⟩⟩ toyWorld
      [StreamOp.transfer InRep.float 512, StreamOp.setPosition 0,
        StreamOp.getNumFrames, StreamOp.getPosition]).1.base.getFormat =
      ((toyDriver 1000 none none 0).psf_sndOpen toyWorld toyIn.getPath
        (ofBool toyIn.mustRescale)).2.2.format ∧
    (performAllOnWriteStream (toyDriver 1000 none none 0) ⟨⟨3, Audio.getCDDAFormat⟩⟩ toyWorld
      [StreamOp.transfer OutRep.short 512, StreamOp.getPosition]).1.base.getNumChannels =
      toUint16 toyOut.getProperties.chans :=
  ⟨⟨toy_open_ok 1000 none, toy_create_ok 1000⟩,
    (stream_format_fixed_at_construction (toyDriver 1000 none none 0) toyWorld toyWorld
      («open» (toyDriver 1000 none none 0) toyWorld toyIn).state toyWorld toyIn toyOut
      ⟨⟨2, Audio.getCDDAFormat⟩⟩ ⟨⟨3, Audio.getCDDAFormat⟩⟩
      [StreamOp.transfer InRep.float 512, StreamOp.setPosition 0,
        StreamOp.getNumFrames, StreamOp.getPosition]
      [StreamOp.transfer OutRep.short 512, StreamOp.getPosition]
      (toy_open_ok 1000 none) (toy_create_ok 1000)).2.1.1,
    (stream_format_fixed_at_construction (toyDriver 1000 none none 0) toyWorld toyWorld
      («open» (toyDriver 1000 none none 0) toyWorld toyIn).state toyWorld toyIn toyOut
      ⟨⟨2, Audio.getCDDAFormat⟩⟩ ⟨⟨3, Audio.getCDDAFormat⟩⟩
      [StreamOp.transfer InRep.float 512, StreamOp.setPosition 0,
        StreamOp.getNumFrames, StreamOp.getPosition]
      [StreamOp.transfer OutRep.short 512, StreamOp.getPosition]
      (toy_open_ok 1000 none) (toy_create_ok 1000)).2.2.2.2.2.2⟩

/-! ## Termination of the block loop -/

theorem LoopTrace.eq_nil_of_zero {r w : Int} {f f' : Nat} {l : List Event}
    (h : LoopTrace r w f f' l) (hf : f = 0) : l = [] := by
  cases h with
  | done => rfl
  | shortRead _ n ret hpos hn hret => omega
  | rejected _ n hpos hn => omega
  | shortWrite _ n ret hpos hn hret => omega
  | block _ n f₁ _ rest hpos hn hf₁ hrest => omega

theorem LoopTrace.iterations_small {r w : Int} {f f' : Nat} {l : List Event}
    (h : LoopTrace r w f f' l) (hf : f < 2147483648) :
    (readRequests l).length ≤ (f + 511) / 512 := by
  induction h with
  | done => exact Nat.zero_le _
  | shortRead f n ret hpos hn hret =>
    show 1 ≤ (f + 511) / 512
    omega
  | rejected f n hpos hn =>
    show 1 ≤ (f + 511) / 512
    omega
  | shortWrite f n ret hpos hn hret =>
    show 1 ≤ (f + 511) / 512
    omega
  | block f n f₁ f' rest hpos hn hf₁ _ ih =>
    have hf₁' : f₁ = f - min f 512 := by
      rw [hf₁]
      exact framesLeft_next_small f hf
    have ih' := ih (by omega)
    show (readRequests rest).length + 1 ≤ (f + 511) / 512
    omega

theorem LoopTrace.iterations_large {r w : Int} {f f' : Nat} {l : List Event}
    (h : LoopTrace r w f f' l) (h₁ : 2147483648 ≤ f) (h₂ : f < 4294967296) :
    (readRequests l).length ≤ 1 := by
  cases h with
  | done => exact Nat.zero_le _
  | shortRead _ n ret hpos hn hret => exact Nat.le_refl 1
  | rejected _ n hpos hn => exact Nat.le_refl 1
  | shortWrite _ n ret hpos hn hret => exact Nat.le_refl 1
  | block _ n f₁ _ rest hpos hn hf₁ hrest =>
    have h0 : f₁ = 0 := by
      rw [hf₁]
      exact framesLeft_next_large f h₁ h₂
    rw [hrest.eq_nil_of_zero h0]
    exact Nat.le_refl 1

theorem iterations_bounded (r w : Int) (N f' : Nat) (l : List Event)
    (h : LoopTrace r w N f' l) (hN : N < 4294967296) :
    (readRequests (Event.sndSize r N :: l)).length ≤
      if N < 2147483648 then (N + 511) / 512 else 1 := by
  show (readRequests l).length ≤ _
  by_cases hs : N < 2147483648
  · rw [if_pos hs]
    exact h.iterations_small hs
  · rw [if_neg hs]
    exact h.iterations_large (by omega) hN

/-- C14: the block loop is a total function, its recursion being well founded on
`framesLeft`. An iteration that does not stop the loop on `0 < framesLeft < 2^32` hands
the next iteration a `framesLeft` that is strictly smaller, and smaller by exactly the
block length: the subtraction modulo `2^32` does not wrap. The run therefore starts at
most `(N + 511) / 512` iterations when the source reports `N < 2^31` frames and at most
one iteration otherwise. -/
theorem whileLoop_decreases_and_iterations_bounded {σ : Type} (d : Driver σ)
    (inRep : InRep) (outRep : OutRep) (rStream : ReadStream) (wStream : WriteStream)
    (processCall : ProcessCallback σ) (s : σ) :
    (∀ (f : Nat) (s' : σ), 0 < f → f < 4294967296 →
      (rStream.read d inRep s' (toUint16 (numFrames f))).2 = toUint16 (numFrames f) →
      (processCall (rStream.read d inRep s' (toUint16 (numFrames f))).1
        (toUint16 (numFrames f))).2 = true →
      (wStream.write d outRep (processCall (rStream.read d inRep s'
        (toUint16 (numFrames f))).1 (toUint16 (numFrames f))).1
        (toUint16 (numFrames f))).2 = toUint16 (numFrames f) →
      toUint16 ((f : Int) - numFrames f) < f ∧
      toUint16 ((f : Int) - numFrames f) + toUint16 (numFrames f) = f ∧
      (whileLoop d inRep outRep rStream wStream processCall f s').framesLeft =
        (whileLoop d inRep outRep rStream wStream processCall
          (toUint16 ((f : Int) - numFrames f))
          (wStream.write d outRep (processCall (rStream.read d inRep s'
            (toUint16 (numFrames f))).1 (toUint16 (numFrames f))).1
            (toUint16 (numFrames f))).1).framesLeft) ∧
    (readRequests (openAndProcess d inRep outRep rStream wStream processCall s).events).length ≤
      if rStream.base.getNumFrames d s < 2147483648
      then (rStream.base.getNumFrames d s + 511) / 512 else 1 := by
  constructor
  · intro f s' hpos hlt hr hp hw
    refine ⟨framesLeft_next_lt f hpos, ?_, ?_⟩
    · rw [Nat.add_comm]
      exact framesLeft_next_add f hlt
    · rw [whileLoop_block d inRep outRep rStream wStream processCall f s' hpos hr hp hw,
        LoopResult.after_framesLeft]
  · rw [openAndProcess_events]
    exact iterations_bounded rStream.base.sfd_ wStream.base.sfd_
      (rStream.base.getNumFrames d s)
      (whileLoop d inRep outRep rStream wStream processCall
        (rStream.base.getNumFrames d s) s).framesLeft
      (whileLoop d inRep outRep rStream wStream processCall
        (rStream.base.getNumFrames d s) s).events
      (whileLoop_trace d inRep outRep rStream wStream processCall _ s)
      (getNumFrames_lt d rStream.base s)

theorem whileLoop_decreases_and_iterations_bounded_witness :
    (toUint16 (((1000 : Nat) : Int) - numFrames 1000) < 1000 ∧
      toUint16 (((1000 : Nat) : Int) - numFrames 1000) + toUint16 (numFrames 1000) = 1000) ∧
    (readRequests (openAndProcess (toyDriver 1000 none none 0) InRep.float OutRep.float
      toyReadStream toyWriteStream toyAccept toyWorld).events).length ≤
      (if toyReadStream.base.getNumFrames (toyDriver 1000 none none 0) toyWorld < 2147483648
      then (toyReadStream.base.getNumFrames (toyDriver 1000 none none 0) toyWorld + 511) / 512
      else 1) ∧
    (readRequests (openAndProcess (toyDriver (-1) none none 0) InRep.float OutRep.float
      toyReadStream toyWriteStream toyAccept toyWorld).events).length ≤
      (if toyReadStream.base.getNumFrames (toyDriver (-1) none none 0) toyWorld < 2147483648
      then (toyReadStream.base.getNumFrames (toyDriver (-1) none none 0) toyWorld + 511) / 512
      else 1) := by
  have hn : toUint16 (numFrames 1000) = 512 := by
    rw [toUint16_numFrames_small 1000 (by omega)]
    rfl
  have h := (whileLoop_decreases_and_iterations_bounded (toyDriver 1000 none none 0)
    InRep.float OutRep.float toyReadStream toyWriteStream toyAccept toyWorld).1 1000 toyWorld
    (by omega) (by omega)
    (by rw [hn, toy_read _ _ _ _ _ _ _ _ (by omega)])
    (by rw [hn]; rfl)
    (by rw [hn, toy_write _ _ _ _ _ _ _ _ (by omega)])
  exact ⟨⟨h.1, h.2.1⟩,
    (whileLoop_decreases_and_iterations_bounded (toyDriver 1000 none none 0)
      InRep.float OutRep.float toyReadStream toyWriteStream toyAccept toyWorld).2,
    (whileLoop_decreases_and_iterations_bounded (toyDriver (-1) none none 0)
      InRep.float OutRep.float toyReadStream toyWriteStream toyAccept toyWorld).2⟩

/-! ## The full run of a file -/

theorem LoopTrace.full_shape {r w : Int} {f f' : Nat} {l : List Event}
    (h : LoopTrace r w f f' l) (hf : f < 2147483648) (h0 : f' = 0) :
    l = fullRun r w (blockSchedule f) := by
  induction h with
  | done =>
    rw [blockSchedule_zero]
    rfl
  | shortRead f n ret hpos hn hret => omega
  | rejected f n hpos hn => omega
  | shortWrite f n ret hpos hn hret => omega
  | block f n f₁ f' rest hpos hn hf₁ _ ih =>
    have hn' : n = min f 512 := by
      rw [hn]
      exact toUint16_numFrames_small f hf
    have hf₁' : f₁ = f - min f 512 := by
      rw [hf₁]
      exact framesLeft_next_small f hf
    rw [blockSchedule_pos f hpos, ← hf₁', ← hn', ih (by omega) h0]
    rfl

theorem full_run_of_steps (r w : Int) (N f' : Nat) (l : List Event)
    (h : LoopTrace r w N f' l) (hN : N < 2147483648)
    (hr : ∀ fd n ret, Event.read fd n ret ∈ Event.sndSize r N :: l → ret = n)
    (hp : ∀ n ok, Event.process n ok ∈ Event.sndSize r N :: l → ok = true)
    (hw : ∀ fd n ret, Event.write fd n ret ∈ Event.sndSize r N :: l → ret = n) :
    decide (f' = 0) = true ∧
    Event.sndSize r N :: l = Event.sndSize r N :: fullRun r w (blockSchedule N) ∧
    (blockSchedule N).length = (N + 511) / 512 ∧
    writeRequests (Event.sndSize r N :: l) = blockSchedule N ∧
    (writeRequests (Event.sndSize r N :: l)).sum = N ∧
    blockSchedule 1000 = [512, 488] := by
  have h0 : f' = 0 :=
    h.exit_zero_iff.2 ((steps_succeed_cons_sndSize r N l).1 ⟨hr, hp, hw⟩)
  have hl : l = fullRun r w (blockSchedule N) := h.full_shape hN h0
  have hwr : writeRequests (Event.sndSize r N :: l) = blockSchedule N := by
    rw [hl]
    show writeRequests (fullRun r w (blockSchedule N)) = _
    exact writeRequests_fullRun r w _
  refine ⟨by simp [h0], by rw [hl], blockSchedule_length N, hwr, ?_, by decide⟩
  rw [hwr]
  exact blockSchedule_sum N

/-- C3: when the source reports `N < 2^31` frames and, in the run, every read and every
write returns the requested count and every transform call returns `true`,
`openAndProcess` returns `true` and its log is the query of the frame count followed by
one read, transform call and write per entry of the block schedule (512 repeated `N / 512`
times, then `N % 512` when it is not zero): that makes `(N + 511) / 512` iterations, whose
frame counts add up to `N`; for 1000 frames the schedule is 512 then 488. -/
theorem openAndProcess_full_run {σ : Type} (d : Driver σ) (inRep : InRep)
    (outRep : OutRep) (rStream : ReadStream) (wStream : WriteStream)
    (processCall : ProcessCallback σ) (s : σ)
    (hN : rStream.base.getNumFrames d s < 2147483648)
    (hr : ∀ fd n ret, Event.read fd n ret ∈
      (openAndProcess d inRep outRep rStream wStream processCall s).events → ret = n)
    (hp : ∀ n ok, Event.process n ok ∈
      (openAndProcess d inRep outRep rStream wStream processCall s).events → ok = true)
    (hw : ∀ fd n ret, Event.write fd n ret ∈
      (openAndProcess d inRep outRep rStream wStream processCall s).events → ret = n) :
    (openAndProcess d inRep outRep rStream wStream processCall s).result = true ∧
    (openAndProcess d inRep outRep rStream wStream processCall s).events =
      Event.sndSize rStream.base.sfd_ (rStream.base.getNumFrames d s) ::
        fullRun rStream.base.sfd_ wStream.base.sfd_
          (blockSchedule (rStream.base.getNumFrames d s)) ∧
    (blockSchedule (rStream.base.getNumFrames d s)).length =
      (rStream.base.getNumFrames d s + 511) / 512 ∧
    writeRequests (openAndProcess d inRep outRep rStream wStream processCall s).events =
      blockSchedule (rStream.base.getNumFrames d s) ∧
    (writeRequests (openAndProcess d inRep outRep rStream wStream processCall s).events).sum =
      rStream.base.getNumFrames d s ∧
    blockSchedule 1000 = [512, 488] := by
  rw [openAndProcess_events] at hr hp hw
  rw [openAndProcess_result, openAndProcess_events]
  exact full_run_of_steps rStream.base.sfd_ wStream.base.sfd_
    (rStream.base.getNumFrames d s)
    (whileLoop d inRep outRep rStream wStream processCall
      (rStream.base.getNumFrames d s) s).framesLeft
    (whileLoop d inRep outRep rStream wStream processCall
      (rStream.base.getNumFrames d s) s).events
    (whileLoop_trace d inRep outRep rStream wStream processCall _ s) hN hr hp hw

/-! ## The file driver -/

theorem file_getNumFrames (b : BaseStream) (s : FileWorld) (h : s.size < 4294967296) :
    b.getNumFrames fileDriver s = s.size :=
  toUint16_of_lt s.size h

theorem file_read (r : ReadStream) (rep : InRep) (s : FileWorld) (n : Nat)
    (h : n < 4294967296) :
    r.read fileDriver rep s n =
      ({ s with pos := s.pos + min n (s.size - s.pos) }, min n (s.size - s.pos)) := by
  have hlt : min n (s.size - s.pos) < 4294967296 := by omega
  cases rep
  · show (_, toUint16 ((min n (s.size - s.pos) : Nat) : Int)) = _
    rw [toUint16_of_lt _ hlt]
    rfl
  · show (_, toUint16 ((min n (s.size - s.pos) : Nat) : Int)) = _
    rw [toUint16_of_lt _ hlt]
    rfl

theorem file_write (w : WriteStream) (rep : OutRep) (s : FileWorld) (n : Nat)
    (h : n < 4294967296) :
    w.write fileDriver rep s n = ({ s with written := s.written + n }, n) := by
  cases rep
  · show (_, toUint16 ((n : Nat) : Int)) = _
    rw [toUint16_of_lt _ h]
    rfl
  · show (_, toUint16 ((n : Nat) : Int)) = _
    rw [toUint16_of_lt _ h]
    rfl
  · show (_, toUint16 ((n : Nat) : Int)) = _
    rw [toUint16_of_lt _ h]
    rfl

theorem file_loop :
    (whileLoop fileDriver InRep.float OutRep.float toyReadStream toyWriteStream fileAccept
      1000 fileWorld).framesLeft = 0 ∧
    (whileLoop fileDriver InRep.float OutRep.float toyReadStream toyWriteStream fileAccept
      1000 fileWorld).events =
      [Event.read 0 512 512, Event.process 512 true, Event.write 1 512 512,
        Event.read 0 488 488, Event.process 488 true, Event.write 1 488 488] ∧
    (whileLoop fileDriver InRep.float OutRep.float toyReadStream toyWriteStream fileAccept
      1000 fileWorld).state = { size := 1000, pos := 1000, written := 1000 } := by
  have hn : toUint16 (numFrames 1000) = 512 := by
    rw [toUint16_numFrames_small 1000 (by omega)]
    rfl
  have hnext : toUint16 (((1000 : Nat) : Int) - numFrames 1000) = 488 := by
    rw [framesLeft_next_small 1000 (by omega)]
    rfl
  have hn2 : toUint16 (numFrames 488) = 488 := by
    rw [toUint16_numFrames_small 488 (by omega)]
    rfl
  have hnext2 : toUint16 (((488 : Nat) : Int) - numFrames 488) = 0 := by
    rw [framesLeft_next_small 488 (by omega)]
    rfl
  have hS1 : (toyWriteStream.write fileDriver OutRep.float
      (fileAccept (toyReadStream.read fileDriver InRep.float fileWorld 512).1 512).1 512).1 =
      { size := 1000, pos := 512, written := 512 } := by
    rw [file_write _ _ _ _ (by omega), file_read _ _ _ _ (by omega)]
    rfl
  have hS2 : (toyWriteStream.write fileDriver OutRep.float
      (fileAccept (toyReadStream.read fileDriver InRep.float
        { size := 1000, pos := 512, written := 512 } 488).1 488).1 488).1 =
      { size := 1000, pos := 1000, written := 1000 } := by
    rw [file_write _ _ _ _ (by omega), file_read _ _ _ _ (by omega)]
    rfl
  have hb1 := whileLoop_block fileDriver InRep.float OutRep.float toyReadStream
    toyWriteStream fileAccept 1000 fileWorld (by omega)
    (by rw [hn, file_read _ _ _ _ (by omega)]; rfl)
    (by rfl)
    (by rw [hn, file_write _ _ _ _ (by omega)])
  rw [hn, hnext, hS1] at hb1
  have hb2 := whileLoop_block fileDriver InRep.float OutRep.float toyReadStream
    toyWriteStream fileAccept 488 { size := 1000, pos := 512, written := 512 } (by omega)
    (by rw [hn2, file_read _ _ _ _ (by omega)]; rfl)
    (by rfl)
    (by rw [hn2, file_write _ _ _ _ (by omega)])
  rw [hn2, hnext2, hS2, whileLoop_zero] at hb2
  rw [hb1, LoopResult.after_framesLeft, LoopResult.after_events, LoopResult.after_state, hb2]
  exact ⟨rfl, rfl, rfl⟩

theorem file_run_events :
    (openAndProcess fileDriver InRep.float OutRep.float toyReadStream toyWriteStream
      fileAccept fileWorld).events =
      [Event.sndSize 0 1000, Event.read 0 512 512, Event.process 512 true,
        Event.write 1 512 512, Event.read 0 488 488, Event.process 488 true,
        Event.write 1 488 488] := by
  have hsize : toyReadStream.base.getNumFrames fileDriver fileWorld = 1000 :=
    file_getNumFrames _ fileWorld (by decide)
  rw [openAndProcess_events, hsize, file_loop.2.1]
  rfl

theorem openAndProcess_full_run_witness :
    (toyReadStream.base.getNumFrames fileDriver fileWorld < 2147483648 ∧
      (∀ fd n ret, Event.read fd n ret ∈
        (openAndProcess fileDriver InRep.float OutRep.float toyReadStream toyWriteStream
          fileAccept fileWorld).events → ret = n) ∧
      (∀ n ok, Event.process n ok ∈
        (openAndProcess fileDriver InRep.float OutRep.float toyReadStream toyWriteStream
          fileAccept fileWorld).events → ok = true) ∧
      (∀ fd n ret, Event.write fd n ret ∈
        (openAndProcess fileDriver InRep.float OutRep.float toyReadStream toyWriteStream
          fileAccept fileWorld).events → ret = n)) ∧
    ((openAndProcess fileDriver InRep.float OutRep.float toyReadStream toyWriteStream
        fileAccept fileWorld).result = true ∧
      (openAndProcess fileDriver InRep.float OutRep.float toyReadStream toyWriteStream
        fileAccept fileWorld).events =
        Event.sndSize toyReadStream.base.sfd_
          (toyReadStream.base.getNumFrames fileDriver fileWorld) ::
          fullRun toyReadStream.base.sfd_ toyWriteStream.base.sfd_
            (blockSchedule (toyReadStream.base.getNumFrames fileDriver fileWorld)) ∧
      (blockSchedule (toyReadStream.base.getNumFrames fileDriver fileWorld)).length =
        (toyReadStream.base.getNumFrames fileDriver fileWorld + 511) / 512 ∧
      writeRequests (openAndProcess fileDriver InRep.float OutRep.float toyReadStream
        toyWriteStream fileAccept fileWorld).events =
        blockSchedule (toyReadStream.base.getNumFrames fileDriver fileWorld) ∧
      (writeRequests (openAndProcess fileDriver InRep.float OutRep.float toyReadStream
        toyWriteStream fileAccept fileWorld).events).sum =
        toyReadStream.base.getNumFrames fileDriver fileWorld ∧
      blockSchedule 1000 = [512, 488]) ∧
    toyReadStream.base.getNumFrames fileDriver fileWorld = 1000 ∧
    (openAndProcess fileDriver InRep.float OutRep.float toyReadStream toyWriteStream
      fileAccept fileWorld).events =
      [Event.sndSize 0 1000, Event.read 0 512 512, Event.process 512 true,
        Event.write 1 512 512, Event.read 0 488 488, Event.process 488 true,
        Event.write 1 488 488] ∧
    (openAndProcess fileDriver InRep.float OutRep.float toyReadStream toyWriteStream
      fileAccept fileWorld).state = { size := 1000, pos := 1000, written := 1000 } ∧
    (toyReadStream.read fileDriver InRep.float
      { size := 1000, pos := 1000, written := 1000 } 512).2 = 0 := by
  have hsize : toyReadStream.base.getNumFrames fileDriver fileWorld = 1000 :=
    file_getNumFrames _ fileWorld (by decide)
  have hN : toyReadStream.base.getNumFrames fileDriver fileWorld < 2147483648 := by
    rw [hsize]
    omega
  have hr : ∀ fd n ret, Event.read fd n ret ∈
      (openAndProcess fileDriver InRep.float OutRep.float toyReadStream toyWriteStream
        fileAccept fileWorld).events → ret = n := by
    intro fd n ret h
    rw [file_run_events] at h
    simp at h
    omega
  have hp : ∀ n ok, Event.process n ok ∈
      (openAndProcess fileDriver InRep.float OutRep.float toyReadStream toyWriteStream
        fileAccept fileWorld).events → ok = true := by
    intro n ok h
    rw [file_run_events] at h
    simp at h
    rcases h with h | h
    · exact h.2
    · exact h.2
  have hw : ∀ fd n ret, Event.write fd n ret ∈
      (openAndProcess fileDriver InRep.float OutRep.float toyReadStream toyWriteStream
        fileAccept fileWorld).events → ret = n := by
    intro fd n ret h
    rw [file_run_events] at h
    simp at h
    omega
  refine ⟨⟨hN, hr, hp, hw⟩,
    openAndProcess_full_run fileDriver InRep.float OutRep.float toyReadStream
      toyWriteStream fileAccept fileWorld hN hr hp hw,
    hsize, file_run_events, ?_, ?_⟩
  · rw [openAndProcess_state, hsize, file_loop.2.2]
  · rw [file_read _ _ _ _ (by omega)]
    rfl

/-! ## The parameter-object overload after a failed open or create -/

theorem params_both_opened_result {σ : Type} (d : Driver σ) (inRep : InRep)
    (outRep : OutRep) (oParams : OpenParams) (cParams : CreateParams)
    (processCall : ProcessCallback σ) (s : σ) (rStream : ReadStream) (wStream : WriteStream)
    (ho : («open» d s oParams).stream = some rStream)
    (hc : (create d («open» d s oParams).state cParams).stream = some wStream) :
    (openAndProcessParams d inRep outRep oParams cParams processCall s).result =
      (openAndProcess d inRep outRep rStream wStream processCall
        (create d («open» d s oParams).state cParams).state).result := by
  rw [openAndProcessParams_both_opened d inRep outRep oParams cParams processCall s
    rStream wStream ho hc]

theorem toy_full_run (oe ce : Option Int) (r : ReadStream) (w : WriteStream) (s : ToyWorld) :
    (openAndProcess (toyDriver 1000 oe ce 0) InRep.float OutRep.float r w toyAccept
      s).result = true ∧
    (openAndProcess (toyDriver 1000 oe ce 0) InRep.float OutRep.float r w toyAccept
      s).events =
      [Event.sndSize r.base.sfd_ 1000, Event.read r.base.sfd_ 512 512,
        Event.process 512 true, Event.write w.base.sfd_ 512 512,
        Event.read r.base.sfd_ 488 488, Event.process 488 true,
        Event.write w.base.sfd_ 488 488] := by
  have h1000 : toUint16 1000 = 1000 := toUint16_of_lt 1000 (by omega)
  have hsched : blockSchedule 1000 = [512, 488] := by decide
  obtain ⟨h1, h2⟩ := whileLoop_cooperative (toyDriver 1000 oe ce 0) InRep.float OutRep.float
    r w toyAccept
    (fun s' n hn => by rw [toy_read _ _ _ _ _ _ _ _ (by omega)])
    (fun _ _ _ => rfl)
    (fun s' n hn => by rw [toy_write _ _ _ _ _ _ _ _ (by omega)])
    1000 (by omega) s
  rw [openAndProcess_result, openAndProcess_events, toy_getNumFrames, h1000, h1, h2, hsched]
  exact ⟨rfl, rfl⟩

/-- C8, at the failing input. When the driver's open fails with the error code -2, the
parameter-object overload of `openAndProcess` does invoke the driver's create, reads,
transforms and writes both blocks and returns `true`. When the driver's create fails with
-2, it reads, transforms and writes both blocks and returns `true` as well. -/
theorem openAndProcessParams_runs_after_failed_open :
    (((toyDriver 1000 (some (-2)) none 0).psf_sndOpen toyWorld toyIn.getPath
        (ofBool toyIn.mustRescale)).2.1 = -2 ∧
      (openAndProcessParams (toyDriver 1000 (some (-2)) none 0) InRep.float OutRep.float
        toyIn toyOut toyAccept toyWorld).result = true ∧
      (openAndProcessParams (toyDriver 1000 (some (-2)) none 0) InRep.float OutRep.float
        toyIn toyOut toyAccept toyWorld).events =
        [Event.sndOpen "in.wav" 0 (-2),
          Event.sndCreate "out.wav" Audio.getCDDAFormat 0 0 0 2,
          Event.sndSize (-2) 1000,
          Event.read (-2) 512 512, Event.process 512 true, Event.write 2 512 512,
          Event.read (-2) 488 488, Event.process 488 true, Event.write 2 488 488,
          Event.sndClose 2, Event.sndClose (-2)]) ∧
    (((toyDriver 1000 none (some (-2)) 0).psf_sndCreate
        («open» (toyDriver 1000 none (some (-2)) 0) toyWorld toyIn).state toyOut.getPath
        toyOut.getProperties (ofBool toyOut.mustSupportsClippingOfFloats)
        toyOut.getMinHeader toyOut.getMode).2 = -2 ∧
      (openAndProcessParams (toyDriver 1000 none (some (-2)) 0) InRep.float OutRep.float
        toyIn toyOut toyAccept toyWorld).result = true ∧
      (openAndProcessParams (toyDriver 1000 none (some (-2)) 0) InRep.float OutRep.float
        toyIn toyOut toyAccept toyWorld).events =
        [Event.sndOpen "in.wav" 0 2,
          Event.sndCreate "out.wav" Audio.getCDDAFormat 0 0 0 (-2),
          Event.sndSize 2 1000,
          Event.read 2 512 512, Event.process 512 true, Event.write (-2) 512 512,
          Event.read 2 488 488, Event.process 488 true, Event.write (-2) 488 488,
          Event.sndClose (-2), Event.sndClose 2]) := by
  have ho1 : («open» (toyDriver 1000 (some (-2)) none 0) toyWorld toyIn).stream =
      some ⟨⟨-2, Audio.getCDDAFormat⟩⟩ := by
    rw [open_stream]
    simp [toyDriver]
  have hc1 : (create (toyDriver 1000 (some (-2)) none 0)
      («open» (toyDriver 1000 (some (-2)) none 0) toyWorld toyIn).state toyOut).stream =
      some ⟨⟨2, Audio.getCDDAFormat⟩⟩ := by
    rw [create_stream, open_state]
    simp [toyDriver, toyWorld, toyOut, CreateParams.mk1, CreateParams.mk2,
      CreateParams.getProperties]
  have hc2 : (create (toyDriver 1000 none (some (-2)) 0)
      («open» (toyDriver 1000 none (some (-2)) 0) toyWorld toyIn).state toyOut).stream =
      some ⟨⟨-2, Audio.getCDDAFormat⟩⟩ := by
    rw [create_stream, open_state]
    simp [toyDriver, toyOut, CreateParams.mk1, CreateParams.mk2,
      CreateParams.getProperties]
  refine ⟨⟨rfl, ?_, ?_⟩, ⟨by rw [open_state]; rfl, ?_, ?_⟩⟩
  · rw [params_both_opened_result _ _ _ _ _ _ _ _ _ ho1 hc1]
    exact (toy_full_run _ _ _ _ _).1
  · rw [params_both_opened_events _ _ _ _ _ _ _ _ _ ho1 hc1, (toy_full_run _ _ _ _ _).2,
      open_state]
    rfl
  · rw [params_both_opened_result _ _ _ _ _ _ _ _ _ (toy_open_ok 1000 (some (-2))) hc2]
    exact (toy_full_run _ _ _ _ _).1
  · rw [params_both_opened_events _ _ _ _ _ _ _ _ _ (toy_open_ok 1000 (some (-2))) hc2,
      (toy_full_run _ _ _ _ _).2, open_state]
    rfl

end FileSystem

end PortsfCpp
